import Mathlib

/-!
Shallow embedding of the receive-side protocol engine of an RxRPC call
(`src/net/rxrpc/receive.c`), together with proofs about its receive-window
maintenance, duplicate handling, jumbo splitting, ACK validation and
congestion management.
-/

namespace RxRPC

/-- The size of the 32-bit sequence-number space (`rxrpc_seq_t` is `u32`). -/
def U32 : Nat := 4294967296

/-- Half of `U32`; the threshold at which a 32-bit value becomes negative when
reinterpreted as `s32`. -/
def HALF32 : Nat := 2147483648

/-- Modelled from the spec: `RXRPC_SACK_SIZE`, the size of the selective-ACK
bitmap (`ar-internal.h` is not part of the sources; the spec requires a power
of two at least the maximum window). -/
def SACK_SIZE : Nat := 256

/-- Modelled from the spec: `RXRPC_JUMBO_DATALEN`, the data length of one
jumbo subpacket. -/
def JUMBO_DATALEN : Nat := 1412

/-- Modelled from the spec: the size of the 4-byte jumbo subpacket header
(`flags:u8`, padding, `_rsvd:u16`). -/
def JUMBO_HDR_SIZE : Nat := 4

/-- Modelled from the spec: `RXRPC_JUMBO_SUBPKTLEN = JUMBO_DATALEN +
sizeof(jumbo_header)`. -/
def JUMBO_SUBPKTLEN : Nat := JUMBO_DATALEN + JUMBO_HDR_SIZE

/-- Modelled from the spec: `sizeof(struct rxrpc_wire_header)` (the fixed
RxRPC wire header). -/
def WIRE_HDR_SIZE : Nat := 28

/-- Modelled from the spec: size of the fixed part of the ACK body
(`serial:u32, firstPacket:u32, previousPacket:u32, reason:u8, nAcks:u8`). -/
def ACK_HDR_SIZE : Nat := 14

/-- Modelled from the spec: `sizeof(struct rxrpc_ackinfo)` (four `u32`
fields: `rxMTU`, `maxMTU`, `rwind`, `jumbo_max`). -/
def ACKINFO_SIZE : Nat := 16

/-- Modelled from the spec: `RXRPC_TX_MAX_WINDOW`, the transmit window
ceiling used to clamp `cwnd` and `rwind`. -/
def TX_MAX_WINDOW : Nat := 128

/-- Modelled from the spec: `RXRPC_TX_SMSS`, the sender maximum segment size
used to pick the initial congestion window. -/
def TX_SMSS : Nat := 1412

/-- ACK reason code `RXRPC_ACK_REQUESTED`. -/
def ACK_REQUESTED : Nat := 1
/-- ACK reason code `RXRPC_ACK_DUPLICATE`. -/
def ACK_DUPLICATE : Nat := 2
/-- ACK reason code `RXRPC_ACK_OUT_OF_SEQUENCE`. -/
def ACK_OUT_OF_SEQUENCE : Nat := 3
/-- ACK reason code `RXRPC_ACK_EXCEEDS_WINDOW`. -/
def ACK_EXCEEDS_WINDOW : Nat := 4
/-- ACK reason code `RXRPC_ACK_NOSPACE`. -/
def ACK_NOSPACE : Nat := 5
/-- ACK reason code `RXRPC_ACK_PING`. -/
def ACK_PING : Nat := 6
/-- ACK reason code `RXRPC_ACK_PING_RESPONSE`. -/
def ACK_PING_RESPONSE : Nat := 7
/-- ACK reason code `RXRPC_ACK_DELAY`. -/
def ACK_DELAY : Nat := 8
/-- ACK reason code `RXRPC_ACK_IDLE`. -/
def ACK_IDLE : Nat := 9
/-- Soft-ACK array entry value `RXRPC_ACK_TYPE_ACK`. -/
def ACK_TYPE_ACK : Nat := 1

/-- Modelled from the spec: 32-bit wraparound subtraction, the `u32` value of
`a - b`. -/
def u32sub (a b : Nat) : Nat := (a % U32 + (U32 - b % U32)) % U32

/-- Reinterpretation of a 32-bit value as a signed `s32`. -/
def s32 (n : Nat) : Int := if n % U32 < HALF32 then (n % U32 : Int) else (n % U32 : Int) - (U32 : Int)

/-- Modelled from the spec: `after(a,b) = (s32)(a - b) > 0` (§4.1 SeqArith;
the macros live in `ar-internal.h`, outside the sources). -/
def seq_after (a b : Nat) : Bool := decide (0 < s32 (u32sub a b))

/-- Modelled from the spec: `before(a,b) = (s32)(a - b) < 0`. -/
def seq_before (a b : Nat) : Bool := decide (s32 (u32sub a b) < 0)

/-- Modelled from the spec: `after_eq(a,b) = (s32)(a - b) >= 0`. -/
def seq_after_eq (a b : Nat) : Bool := decide (0 ≤ s32 (u32sub a b))

/-- Modelled from the spec: `before_eq(a,b) = (s32)(a - b) <= 0`. -/
def seq_before_eq (a b : Nat) : Bool := decide (s32 (u32sub a b) ≤ 0)

/-- The per-packet header flag bits consulted by the receive path. -/
structure PktFlags where
  last : Bool
  request_ack : Bool
  jumbo : Bool
deriving DecidableEq, Repr

/-- One DATA (sub)packet as handed to `rxrpc_receive_data_one`: the parsed
`seq`, `serial` and flags of its header. -/
structure SubPkt where
  seq : Nat
  serial : Nat
  flags : PktFlags
deriving DecidableEq, Repr

/-- One outbound DATA unit buffered in the Tx window (`struct rxrpc_txbuf`):
its sequence number and whether it carries the LAST flag. -/
structure TxBuf where
  seq : Nat
  last : Bool
deriving DecidableEq, Repr

/-- The call's phase state machine (`enum rxrpc_call_state`), with `complete`
standing for all `RXRPC_CALL_COMPLETE` situations. -/
inductive CallPhase where
  | clientSendRequest
  | clientAwaitReply
  | clientRecvReply
  | serverRecvRequest
  | serverAckRequest
  | serverSendReply
  | serverAwaitAck
  | complete
deriving DecidableEq, Repr

/-- The reason a call reached `RXRPC_CALL_COMPLETE`. -/
inductive Completion where
  | succeeded
  | remotelyAborted
  | locallyAborted
  | networkError
  | expired
deriving DecidableEq, Repr

/-- The completion record attached to a completed call: kind, 32-bit abort
code (kept as `Int` to carry the negative RX error constants) and errno. -/
structure CompletionInfo where
  kind : Completion
  abortCode : Int
  error : Int
deriving DecidableEq, Repr

/-- Congestion-control mode (`enum rxrpc_congest_mode`). -/
inductive CongMode where
  | slowStart
  | congestAvoidance
  | packetLoss
  | fastRetransmit
deriving DecidableEq, Repr

/-- RTT sample classification (`enum rxrpc_rtt_rx_trace`), restricted to the
tags the ACK path produces. -/
inductive RttRxKind where
  | pingResponse
  | requestedAck
  | cancel
deriving DecidableEq, Repr

/-- Outbound intents emitted by the receive path to its collaborators
(ACK transmission, abort emission, resend requests, wakeups). -/
inductive OutAction where
  | sendAck (reason : Nat) (serial : Nat)
  | delayAck (serial : Nat)
  | sendAbortPkt
  | resendReq
  | wakeTx
  | notifySock
  | proposePing (serial : Nat)
  | addRtt (kind : RttRxKind) (slot : Nat) (origSerial ackSerial sentAt respTime : Nat)
  | freeSkb
deriving DecidableEq, Repr

/-- The mutable state of one call as consulted and updated by the receive
path: receive window, flags, phase, transmit bookkeeping, congestion state,
RTT probe slots, peer data and timer hooks. -/
structure CallState where
  window : Nat
  wtop : Nat
  rx_winsize : Nat
  ackr_sack_table : List Bool
  rx_queue : List SubPkt
  rx_oos_queue : List SubPkt
  nr_jumbo_bad : Nat
  rx_highest_seq : Nat
  ackr_nr_unacked : Nat
  ackr_reason : Nat
  rx_last : Bool
  tx_last : Bool
  tx_all_acked : Bool
  retrans_timeout : Bool
  state : CallPhase
  completion : Option CompletionInfo
  is_client : Bool
  tx_phase : Bool
  tx_top : Nat
  tx_buffer : List TxBuf
  tx_winsize : Nat
  acks_hard_ack : Nat
  acks_first_seq : Nat
  acks_prev_seq : Nat
  acks_lowest_nak : Nat
  acks_highest_serial : Nat
  acks_latest_ts : Nat
  tx_last_sent : Nat
  cong_mode : CongMode
  cong_cwnd : Nat
  cong_ssthresh : Nat
  cong_dup_acks : Nat
  cong_cumul_acks : Nat
  cong_extra : Nat
  cong_tstamp : Nat
  rtt_pend : List Bool
  rtt_avail : List Bool
  rtt_serial : List Nat
  rtt_sent_at : List Nat
  peer_srtt_us : Nat
  peer_rtt_count : Nat
  peer_maxdata : Nat
  peer_mtu : Nat
  peer_hdrsize : Nat
  resend_at : Nat
  delay_ack_at : Nat
  next_req_timo : Nat
  expect_req_by : Nat
deriving DecidableEq, Repr

/-- Modelled from the spec: `rxrpc_abort_call` (§6/§7; not among the
sources) — set the call to locally-aborted with the given code and errno,
reporting whether the transition happened. -/
def rxrpc_abort_call (s : CallState) (abortCode error : Int) : CallState × Bool :=
  if s.state = CallPhase.complete then (s, false)
  else ({ s with state := CallPhase.complete,
                 completion := some ⟨Completion.locallyAborted, abortCode, error⟩ }, true)

/-- Modelled from the spec: `rxrpc_set_call_completion` (§6; not among the
sources) — terminate the call with the given completion kind. -/
def rxrpc_set_call_completion (s : CallState) (kind : Completion)
    (abortCode error : Int) : CallState × Bool :=
  if s.state = CallPhase.complete then (s, false)
  else ({ s with state := CallPhase.complete,
                 completion := some ⟨kind, abortCode, error⟩ }, true)

/-- Modelled from the spec: `RX_PROTOCOL_ERROR`, the RX abort code sent on a
protocol abort. -/
def RX_PROTOCOL_ERROR : Int := -5

/-- `rxrpc_proto_abort` (receive.c line 12): abort the call with
`RX_PROTOCOL_ERROR`/`-EBADMSG` and, if the call was still live, emit an ABORT
packet. -/
def rxrpc_proto_abort (s : CallState) : CallState × List OutAction :=
  let (s, transitioned) := rxrpc_abort_call s RX_PROTOCOL_ERROR (-74)
  (s, if transitioned then [OutAction.sendAbortPkt] else [])

/-- `rxrpc_receive_dup_data` (receive.c line 331): handle a duplicate
subpacket.  Returns the updated call together with the updated `*_jumbo_bad`
note.  NB the source returns early when `is_jumbo` is set and bumps
`nr_jumbo_bad` otherwise. -/
def rxrpc_receive_dup_data (s : CallState) (isJumbo jumboBad : Bool) :
    CallState × Bool :=
  if isJumbo then (s, jumboBad)
  else if !jumboBad then ({ s with nr_jumbo_bad := s.nr_jumbo_bad + 1 }, true)
  else (s, jumboBad)

/-- `rxrpc_receive_update_ack_window` (receive.c line 348): publish the
packed `(wtop, window)` pair. -/
def rxrpc_receive_update_ack_window (s : CallState) (window wtop : Nat) : CallState :=
  { s with window := window, wtop := wtop }

/-- `rxrpc_receive_queue_data` (receive.c line 357): append a DATA packet to
the Rx queue and republish the window pair. -/
def rxrpc_receive_queue_data (s : CallState) (p : SubPkt) (window wtop : Nat) : CallState :=
  rxrpc_receive_update_ack_window { s with rx_queue := s.rx_queue ++ [p] } window wtop

/-- The drain of the out-of-order queue in `rxrpc_receive_data_one`
(receive.c lines 450-467): pop packets while the head is not after the
window, advancing the window once per popped packet.  Returns the final
window, the drained packets in order, and the remaining queue. -/
def drainOos (window : Nat) : List SubPkt → Nat × List SubPkt × List SubPkt
  | [] => (window, [], [])
  | q :: rest =>
    if seq_after q.seq window then (window, [], q :: rest)
    else
      let w1 := (window + 1) % U32
      let r := drainOos w1 rest
      (r.1, q :: r.2.1, r.2.2)

/-- The SACK-bit reset loop of `rxrpc_receive_data_one` (receive.c lines
471-475), written with explicit fuel; `U32` fuel strictly exceeds the number
of iterations the loop can make. -/
def clearSackAux : Nat → Nat → Nat → List Bool → List Bool
  | 0, _, _, sack => sack
  | fuel + 1, r, w, sack =>
    let sack := sack.set (r % SACK_SIZE) false
    let r1 := (r + 1) % U32
    if seq_before r1 w then clearSackAux fuel r1 w sack else sack

/-- The SACK-bit reset `do`/`while` loop, starting at `reset_from = r` with
final window `w`. -/
def clearSack (r w : Nat) (sack : List Bool) : List Bool :=
  clearSackAux U32 r w sack

/-- The ascending-seq insertion into the out-of-order queue
(receive.c lines 498-507): insert before the first element whose seq is
after the new packet's. -/
def oosInsert (p : SubPkt) : List SubPkt → List SubPkt
  | [] => [p]
  | q :: rest =>
    if seq_after q.seq p.seq then p :: q :: rest
    else q :: oosInsert p rest

/-- The window classification of `rxrpc_receive_data_one` (receive.c lines
415-524): the NOSPACE guard, the duplicate/out-of-range checks, in-order
admission with the out-of-order drain, and out-of-order admission. -/
def dataOneClassify (s : CallState) (p : SubPkt) : CallState × List OutAction :=
  let window := s.window
  let wtop := s.wtop
  let wlimit := (window + s.rx_winsize + (U32 - 1)) % U32
  if p.flags.jumbo && decide (s.nr_jumbo_bad > 3) then
    (s, [OutAction.sendAck ACK_NOSPACE p.serial, OutAction.freeSkb])
  else if seq_before p.seq window then
    (s, [OutAction.sendAck ACK_DUPLICATE p.serial, OutAction.freeSkb])
  else if seq_after p.seq wlimit then
    (s, [OutAction.sendAck ACK_EXCEEDS_WINDOW p.serial, OutAction.freeSkb])
  else if p.seq = window then
    -- in-order admission (receive.c lines 430-475)
    let ackReason : Option Nat :=
      if p.flags.request_ack then some ACK_REQUESTED
      else if !s.rx_oos_queue.isEmpty then some ACK_DELAY
      else none
    let s := if ackReason.isNone
             then { s with ackr_nr_unacked := s.ackr_nr_unacked + 1 } else s
    let window := (window + 1) % U32
    let wtop := if seq_after window wtop then window else wtop
    let s := rxrpc_receive_queue_data s p window wtop
    let d := drainOos window s.rx_oos_queue
    let window := d.1
    let s := { s with rx_queue := s.rx_queue ++ d.2.1, rx_oos_queue := d.2.2,
                      window := window, wtop := wtop }
    let s := match d.2.1 with
      | [] => s
      | q :: _ => { s with ackr_sack_table := clearSack q.seq window s.ackr_sack_table }
    match ackReason with
    | some r => (s, [OutAction.sendAck r p.serial])
    | none => (s, [OutAction.delayAck p.serial])
  else
    -- out-of-order admission or duplicate (receive.c lines 476-512)
    let bitSet := s.ackr_sack_table.getD (p.seq % SACK_SIZE) false
    let keep := !bitSet
    let s := if !bitSet
             then { s with ackr_sack_table := s.ackr_sack_table.set (p.seq % SACK_SIZE) true }
             else s
    let s := if seq_after ((p.seq + 1) % U32) wtop
             then rxrpc_receive_update_ack_window s window ((p.seq + 1) % U32)
             else s
    if !keep then
      let s := (rxrpc_receive_dup_data s p.flags.jumbo false).1
      (s, [OutAction.sendAck ACK_DUPLICATE p.serial, OutAction.freeSkb])
    else
      let s := { s with rx_oos_queue := oosInsert p s.rx_oos_queue }
      (s, [OutAction.sendAck ACK_OUT_OF_SEQUENCE p.serial])

/-- The body of `rxrpc_receive_data_one` from the `rx_highest_seq` update
(receive.c line 410) to the end, factored out of the LAST-flag prologue. -/
def dataOneMain (s0 : CallState) (p : SubPkt) : CallState × List OutAction :=
  dataOneClassify
    (if seq_after p.seq s0.rx_highest_seq then { s0 with rx_highest_seq := p.seq } else s0) p

/-- `rxrpc_receive_data_one` (receive.c line 373): process one DATA
(sub)packet against the receive window. -/
def rxrpc_receive_data_one (s : CallState) (p : SubPkt) : CallState × List OutAction :=
  if p.flags.last then
    let already := s.rx_last
    let s := { s with rx_last := true }
    if already && decide ((p.seq + 1) % U32 ≠ s.wtop) then
      let r := rxrpc_proto_abort s
      (r.1, r.2 ++ [OutAction.freeSkb])
    else dataOneMain s p
  else
    if s.rx_last && seq_after_eq p.seq s.wtop then
      let r := rxrpc_proto_abort s
      (r.1, r.2 ++ [OutAction.freeSkb])
    else dataOneMain s p

/-- Per-ACK scratch state (`struct rxrpc_ack_summary`). -/
structure AckSummary where
  ack_reason : Nat
  nr_acks : Nat
  nr_new_acks : Nat
  nr_rot_new_acks : Nat
  saw_nacks : Bool
  new_low_nack : Bool
  retrans_timeo : Bool
  flight_size : Nat
  mode : CongMode
  cwnd : Nat
  ssthresh : Nat
  dup_acks : Nat
  cumulative_acks : Nat
deriving DecidableEq, Repr

/-- The zero-initialised ACK summary (`= { 0 }`). -/
def emptySummary : AckSummary :=
  { ack_reason := 0, nr_acks := 0, nr_new_acks := 0, nr_rot_new_acks := 0,
    saw_nacks := false, new_low_nack := false, retrans_timeo := false,
    flight_size := 0, mode := CongMode.slowStart, cwnd := 0, ssthresh := 0,
    dup_acks := 0, cumulative_acks := 0 }

/-- The Tx-buffer walk of `rxrpc_rotate_tx_window` (receive.c lines
207-217): skip packets at or before the current hard-ACK, count each rotated
packet, note a rotated LAST flag, and stop after reaching `upto` (`to` in the source).  Returns the
number of rotated packets and whether a LAST packet was rotated. -/
def rotateLoop (hardAck upto : Nat) : List TxBuf → Nat × Bool
  | [] => (0, false)
  | t :: rest =>
    if seq_before_eq t.seq hardAck then rotateLoop hardAck upto rest
    else
      let rotLast := t.last
      if t.seq = upto then (1, rotLast)
      else
        let r := rotateLoop hardAck upto rest
        (r.1 + 1, rotLast || r.2)

/-- `rxrpc_rotate_tx_window` (receive.c line 201): apply a hard ACK by
advancing the Tx window to `upto` (`to` in the source).  Returns the new state, the updated
summary, the `rot_last` result and the emitted wakeup. -/
def rxrpc_rotate_tx_window (s : CallState) (upto : Nat) (sum : AckSummary) :
    CallState × AckSummary × Bool × List OutAction :=
  let r := rotateLoop s.acks_hard_ack upto s.tx_buffer
  let rotLast := r.2
  let s := if rotLast then { s with tx_last := true, tx_all_acked := true } else s
  let sum := { sum with nr_rot_new_acks := sum.nr_rot_new_acks + r.1 }
  let (s, sum) :=
    if s.acks_lowest_nak = s.acks_hard_ack then
      ({ s with acks_lowest_nak := upto }, sum)
    else if seq_after upto s.acks_lowest_nak then
      ({ s with acks_lowest_nak := upto }, { sum with new_low_nack := true })
    else (s, sum)
  let s := { s with acks_hard_ack := upto }
  (s, sum, rotLast, [OutAction.wakeTx])

/-- `rxrpc_end_tx_phase` (receive.c line 246): end the transmission phase,
transitioning the call's phase state; any other phase is a protocol abort.
Returns whether the transition succeeded. -/
def rxrpc_end_tx_phase (s : CallState) (replyBegun : Bool) :
    CallState × Bool × List OutAction :=
  match s.state with
  | CallPhase.clientSendRequest | CallPhase.clientAwaitReply =>
    ({ s with state := if replyBegun then CallPhase.clientRecvReply
                       else CallPhase.clientAwaitReply }, true, [])
  | CallPhase.serverAwaitAck =>
    let r := rxrpc_set_call_completion s Completion.succeeded 0 0
    (r.1, true, [])
  | _ =>
    let r := rxrpc_proto_abort s
    (r.1, false, r.2)

/-- Modelled from the spec: `MAX_JIFFY_OFFSET`, the "never" timer offset
used when disabling the resend and delayed-ACK timers for a reply. -/
def MAX_JIFFY_OFFSET : Nat := 2147483646

/-- `rxrpc_receiving_reply` (receive.c line 292): begin the reply reception
phase — push the timers out, rotate the whole Tx window if needed and end
the Tx phase.  Returns whether the call survived. -/
def rxrpc_receiving_reply (now : Nat) (s : CallState) :
    CallState × Bool × List OutAction :=
  let top := s.tx_top
  let s := if s.ackr_reason ≠ 0 then
             { s with resend_at := now + MAX_JIFFY_OFFSET,
                      delay_ack_at := now + MAX_JIFFY_OFFSET }
           else s
  if !s.tx_last then
    let r := rxrpc_rotate_tx_window s top emptySummary
    if !r.2.2.1 then
      let a := rxrpc_proto_abort r.1
      (a.1, false, r.2.2.2 ++ a.2)
    else
      let e := rxrpc_end_tx_phase r.1 true
      if !e.2.1 then (e.1, false, r.2.2.2 ++ e.2.2)
      else ({ e.1 with tx_phase := false }, true, r.2.2.2 ++ e.2.2)
  else
    let e := rxrpc_end_tx_phase s true
    if !e.2.1 then (e.1, false, e.2.2)
    else ({ e.1 with tx_phase := false }, true, e.2.2)

/-- A raw DATA packet as handed to `rxrpc_receive_data`: header fields plus
the buffer length, sharedness (for `skb_unshare`) and the embedded jumbo
sub-headers' flag bytes in order (`_rsvd` is parsed but never consulted, so
it is not carried). -/
structure DataSkb where
  seq : Nat
  serial : Nat
  flags : PktFlags
  securityIndex : Nat
  shared : Bool
  len : Nat
  jhdrs : List PktFlags
deriving DecidableEq, Repr

/-- The subpacket walk of `rxrpc_receive_split_jumbo` (receive.c lines
537-568).  `alloc` is the allocation oracle consulted once per `skb_clone`;
`allocIdx` counts allocations.  Returns the final state, the emitted
actions, the success flag and the next allocation index. -/
def splitLoop (alloc : Nat → Bool) : List PktFlags → Nat → CallState →
    List OutAction → PktFlags → Nat → Nat → Nat →
    CallState × List OutAction × Bool × Nat
  | jhdrs, allocIdx, s, acts, flags, seq, serial, len =>
    if flags.jumbo then
      if len < JUMBO_SUBPKTLEN then (s, acts, false, allocIdx)
      else if flags.last then (s, acts, false, allocIdx)
      else
        match jhdrs with
        | [] => (s, acts, false, allocIdx)
        | jh :: rest =>
          if !alloc allocIdx then (s, acts, false, allocIdx + 1)
          else
            let r := rxrpc_receive_data_one s { seq := seq, serial := serial, flags := flags }
            splitLoop alloc rest (allocIdx + 1) r.1 (acts ++ r.2) jh
              ((seq + 1) % U32) ((serial + 1) % U32) (len - JUMBO_SUBPKTLEN)
    else
      let r := rxrpc_receive_data_one s { seq := seq, serial := serial, flags := flags }
      (r.1, acts ++ r.2, true, allocIdx)

/-- `rxrpc_receive_split_jumbo` (receive.c line 529): split a jumbo packet
and file the bits separately. -/
def rxrpc_receive_split_jumbo (alloc : Nat → Bool) (allocIdx : Nat)
    (s : CallState) (skb : DataSkb) : CallState × List OutAction × Bool × Nat :=
  splitLoop alloc skb.jhdrs allocIdx s [] skb.flags skb.seq skb.serial
    (u32sub skb.len WIRE_HDR_SIZE)

/-- The tail of `rxrpc_receive_data` (receive.c lines 635-646): run the
jumbo split, aborting the call ("VLD") if it fails, then notify the user
socket. -/
def dataSplitPart (alloc : Nat → Bool) (allocIdx : Nat) (s : CallState)
    (acts : List OutAction) (skb : DataSkb) : CallState × List OutAction × Nat :=
  let sp := rxrpc_receive_split_jumbo alloc allocIdx s skb
  if sp.2.2.1 then
    (sp.1, acts ++ sp.2.1 ++ [OutAction.notifySock], sp.2.2.2)
  else
    let a := rxrpc_proto_abort sp.1
    (a.1, acts ++ sp.2.1 ++ a.2 ++ [OutAction.notifySock, OutAction.freeSkb], sp.2.2.2)

/-- `rxrpc_receive_data` (receive.c line 578): process a DATA packet —
unshare for in-place decryption, refresh the request-expectation timer,
apply the receiving-reply edge for client calls, then split and file. -/
def rxrpc_receive_data (alloc : Nat → Bool) (allocIdx now : Nat)
    (s : CallState) (skb : DataSkb) : CallState × List OutAction × Nat :=
  if s.state = CallPhase.complete then
    (s, [OutAction.notifySock, OutAction.freeSkb], allocIdx)
  else
    let needUnshare := skb.securityIndex ≠ 0 && skb.shared
    if needUnshare && !alloc allocIdx then
      (s, [OutAction.freeSkb], allocIdx + 1)
    else
      let allocIdx := if needUnshare then allocIdx + 1 else allocIdx
      let skb := if needUnshare then { skb with shared := false } else skb
      let s := if s.state = CallPhase.serverRecvRequest && decide (s.next_req_timo ≠ 0)
               then { s with expect_req_by := now + s.next_req_timo } else s
      if s.state = CallPhase.clientSendRequest || s.state = CallPhase.clientAwaitReply then
        let r := rxrpc_receiving_reply now s
        if !r.2.1 then
          (r.1, r.2.2 ++ [OutAction.notifySock, OutAction.freeSkb], allocIdx)
        else
          dataSplitPart alloc allocIdx r.1 r.2.2 skb
      else
        dataSplitPart alloc allocIdx s [] skb

/-- The output tail of `rxrpc_congestion_management` at label
`out_no_clear_ca` (receive.c lines 170-178): clamp `cwnd`, commit `cwnd` and
the cumulative-ACK counter, and request a resend if one is due. -/
def congOutFinal (s : CallState) (cwnd cumul : Nat) (resend : Bool)
    (sum : AckSummary) : CallState × AckSummary × List OutAction :=
  let cwnd := if cwnd ≥ TX_MAX_WINDOW then TX_MAX_WINDOW else cwnd
  ({ s with cong_cwnd := cwnd, cong_cumul_acks := cumul }, sum,
   if resend then [OutAction.resendReq] else [])

/-- The `send_extra_data` tail of `rxrpc_congestion_management`
(receive.c lines 186-195): release some previously unsent DATA when there is
any, then fall through to `out_no_clear_ca`. -/
def congSendExtra (s : CallState) (cwnd cumul : Nat) (sum : AckSummary) :
    CallState × AckSummary × List OutAction :=
  let p :=
    if s.tx_last || decide (sum.nr_acks ≠ u32sub s.tx_top s.acks_hard_ack) then
      ({ s with cong_extra := s.cong_extra + 1 }, [OutAction.wakeTx])
    else (s, ([] : List OutAction))
  let r := congOutFinal p.1 cwnd cumul false sum
  (r.1, r.2.1, p.2 ++ r.2.2)

/-- The `packet_loss_detected` tail of `rxrpc_congestion_management`
(receive.c lines 180-184). -/
def congPacketLossDetected (s : CallState) (cwnd cumul : Nat)
    (sum : AckSummary) : CallState × AckSummary × List OutAction :=
  congSendExtra { s with cong_mode := CongMode.packetLoss, cong_dup_acks := 0 }
    cwnd cumul sum

/-- The `resume_normality` tail of `rxrpc_congestion_management`
(receive.c lines 159-167). -/
def congResumeNormality (s : CallState) (cwnd : Nat) (skbTstamp : Nat)
    (sum : AckSummary) : CallState × AckSummary × List OutAction :=
  let s := { s with cong_dup_acks := 0, cong_extra := 0, cong_tstamp := skbTstamp }
  let s := if cwnd < s.cong_ssthresh then { s with cong_mode := CongMode.slowStart }
           else { s with cong_mode := CongMode.congestAvoidance }
  congOutFinal s cwnd 0 false sum

/-- `rxrpc_congestion_management` (receive.c line 23): TCP-style congestion
management driven by one ACK summary.  `skbTstamp` is the packet's receive
timestamp and `now` the current real time (for the idle-reset test).
Returns the updated call, the final summary and the emitted actions. -/
def rxrpc_congestion_management (s : CallState) (skbTstamp now : Nat)
    (sum0 : AckSummary) : CallState × AckSummary × List OutAction :=
  let cumul0 := s.cong_cumul_acks
  let cwnd0 := s.cong_cwnd
  let sum := { sum0 with flight_size := u32sub (u32sub s.tx_top s.acks_hard_ack) sum0.nr_acks }
  let tr :=
    if s.retrans_timeout then
      let s := { s with retrans_timeout := false,
                        cong_ssthresh := max (sum.flight_size / 2) 2 }
      let sum := { sum with retrans_timeo := true }
      if 1 ≥ s.cong_ssthresh ∧ s.cong_mode = CongMode.slowStart then
        ({ s with cong_mode := CongMode.congestAvoidance, cong_tstamp := skbTstamp },
         sum, 1, 0)
      else (s, sum, 1, cumul0)
    else (s, sum, cwnd0, cumul0)
  let s := tr.1
  let sum := tr.2.1
  let cwnd := tr.2.2.1
  let cumul := tr.2.2.2 + sum.nr_new_acks + sum.nr_rot_new_acks
  let cumul := if cumul > 255 then 255 else cumul
  let sum := { sum with mode := s.cong_mode, cwnd := s.cong_cwnd,
                        ssthresh := s.cong_ssthresh, cumulative_acks := cumul,
                        dup_acks := s.cong_dup_acks }
  let sum :=
    if (s.cong_mode = CongMode.slowStart ∨ s.cong_mode = CongMode.congestAvoidance) ∧
       s.tx_last_sent + s.peer_srtt_us / 8 < now then
      { sum with mode := CongMode.slowStart,
                 cwnd := if TX_SMSS > 2190 then 2 else if TX_SMSS > 1095 then 3 else 4 }
    else sum
  match s.cong_mode with
  | CongMode.slowStart =>
    if sum.saw_nacks then congPacketLossDetected s cwnd cumul sum
    else
      let cwnd := if sum.cumulative_acks > 0 then cwnd + 1 else cwnd
      let s := if cwnd ≥ s.cong_ssthresh then
                 { s with cong_mode := CongMode.congestAvoidance, cong_tstamp := skbTstamp }
               else s
      congOutFinal s cwnd 0 false sum
  | CongMode.congestAvoidance =>
    if sum.saw_nacks then congPacketLossDetected s cwnd cumul sum
    else if s.peer_rtt_count = 0 then congOutFinal s cwnd 0 false sum
    else if skbTstamp < s.cong_tstamp + s.peer_srtt_us / 8 then
      congOutFinal s cwnd cumul false sum
    else
      let s := { s with cong_tstamp := skbTstamp }
      let cwnd := if cumul ≥ cwnd then cwnd + 1 else cwnd
      congOutFinal s cwnd 0 false sum
  | CongMode.packetLoss =>
    if !sum.saw_nacks then congResumeNormality s cwnd skbTstamp sum
    else if sum.new_low_nack then
      let s := { s with cong_dup_acks := 1 }
      let s := if s.cong_extra > 1 then { s with cong_extra := 1 } else s
      congSendExtra s cwnd cumul sum
    else
      let s := { s with cong_dup_acks := s.cong_dup_acks + 1 }
      if s.cong_dup_acks < 3 then congSendExtra s cwnd cumul sum
      else
        let s := { s with cong_mode := CongMode.fastRetransmit,
                          cong_ssthresh := max (sum.flight_size / 2) 2 }
        let cwnd := s.cong_ssthresh + 3
        let s := { s with cong_extra := 0, cong_dup_acks := 0 }
        congOutFinal s cwnd 0 true sum
  | CongMode.fastRetransmit =>
    if !sum.new_low_nack then
      let cwnd := if sum.nr_new_acks = 0 then cwnd + 1 else cwnd
      let s := { s with cong_dup_acks := s.cong_dup_acks + 1 }
      if s.cong_dup_acks = 2 then
        congOutFinal { s with cong_dup_acks := 0 } cwnd 0 true sum
      else congOutFinal s cwnd 0 false sum
    else
      let cwnd := s.cong_ssthresh
      if !sum.saw_nacks then congResumeNormality s cwnd skbTstamp sum
      else congOutFinal s cwnd 0 false sum

/-- The per-slot body of `rxrpc_complete_rtt_probe` (receive.c lines
667-697): match one RTT probe slot against the acked serial, producing a
sample on a match and freeing an obsoleted slot. -/
def rttProbeStep (respTime acked ackSerial : Nat) (kind : RttRxKind)
    (acc : CallState × List OutAction) (i : Nat) : CallState × List OutAction :=
  let s := acc.1
  let acts := acc.2
  if !(s.rtt_pend.getD i false) then acc
  else
    let sentAt := s.rtt_sent_at.getD i 0
    let orig := s.rtt_serial.getD i 0
    let m :=
      if orig = acked then
        ({ s with rtt_pend := s.rtt_pend.set i false,
                  rtt_avail := s.rtt_avail.set i true },
         acts ++ (if kind ≠ RttRxKind.cancel
                  then [OutAction.addRtt kind i orig ackSerial sentAt respTime]
                  else []))
      else (s, acts)
    if seq_after acked orig then
      ({ m.1 with rtt_pend := m.1.rtt_pend.set i false,
                  rtt_avail := m.1.rtt_avail.set i true }, m.2)
    else m

/-- `rxrpc_complete_rtt_probe` (receive.c line 652): match the acked serial
against the pending RTT probe slots, producing at most one sample per
matched slot and freeing obsoleted slots. -/
def rxrpc_complete_rtt_probe (s : CallState) (respTime acked ackSerial : Nat)
    (kind : RttRxKind) : CallState × List OutAction :=
  [0, 1, 2, 3].foldl (rttProbeStep respTime acked ackSerial kind) (s, [])

/-- `rxrpc_receive_ackinfo` (receive.c line 706): apply the trailing
ackinfo — clamp and adopt `rwind`, lower `ssthresh`, and shrink the peer
MTU. -/
def rxrpc_receive_ackinfo (s : CallState) (rxMTU maxMTU rwind0 : Nat) :
    CallState × List OutAction :=
  let rwind := if rwind0 > TX_MAX_WINDOW then TX_MAX_WINDOW else rwind0
  let wake := s.tx_winsize ≠ rwind && rwind > s.tx_winsize
  let s := if s.tx_winsize ≠ rwind then { s with tx_winsize := rwind } else s
  let s := if s.cong_ssthresh > rwind then { s with cong_ssthresh := rwind } else s
  let mtu := min rxMTU maxMTU
  let s := if mtu < s.peer_maxdata then
             { s with peer_maxdata := mtu, peer_mtu := mtu + s.peer_hdrsize }
           else s
  (s, if wake then [OutAction.wakeTx] else [])

/-- The byte walk of `rxrpc_receive_soft_acks` (receive.c lines 762-774),
carrying the running index `i`. -/
def softAcksLoop (seq : Nat) : Nat → List Nat → CallState → AckSummary →
    CallState × AckSummary
  | _, [], s, sum => (s, sum)
  | i, b :: rest, s, sum =>
    let p :=
      if b = ACK_TYPE_ACK then
        (s, { sum with nr_acks := sum.nr_acks + 1, nr_new_acks := sum.nr_new_acks + 1 })
      else
        if !sum.saw_nacks && decide (s.acks_lowest_nak ≠ (seq + i) % U32) then
          ({ s with acks_lowest_nak := (seq + i) % U32 },
           { sum with new_low_nack := true, saw_nacks := true })
        else (s, { sum with saw_nacks := true })
    softAcksLoop seq (i + 1) rest p.1 p.2

/-- `rxrpc_receive_soft_acks` (receive.c line 756): process the soft-ACK
array starting at sequence `seq`. -/
def rxrpc_receive_soft_acks (s : CallState) (acks : List Nat) (seq : Nat)
    (sum : AckSummary) : CallState × AckSummary :=
  softAcksLoop seq 0 acks s sum

/-- `rxrpc_is_ack_valid` (receive.c line 781): true if the ACK has not
regressed with respect to the state conveyed by preceding ACKs. -/
def rxrpc_is_ack_valid (s : CallState) (firstPkt prevPkt : Nat) : Bool :=
  let base := s.acks_first_seq
  if seq_after firstPkt base then true
  else if seq_before firstPkt base then false
  else if seq_after_eq prevPkt s.acks_prev_seq then true
  else if seq_after_eq prevPkt ((base + s.tx_winsize) % U32) then false
  else true

/-- An inbound ACK packet as handed to `rxrpc_receive_ack`: the wire-header
serial and REQUEST_ACK flag, the receive timestamp, the buffer length, the
parsed ack header fields, the soft-ACK bytes and the (possibly trailing)
ackinfo values. -/
structure AckPkt where
  serial : Nat
  request_ack : Bool
  tstamp : Nat
  skb_len : Nat
  reason : Nat
  acked_serial : Nat
  first_soft_ack : Nat
  prev_pkt : Nat
  nAcks : Nat
  acks : List Nat
  info_rxMTU : Nat
  info_maxMTU : Nat
  info_rwind : Nat
  info_jumbo_max : Nat
deriving DecidableEq, Repr

/-- The post-validity bookkeeping of `rxrpc_receive_ack` (receive.c lines
902-926): record the ACK anchors, advance `acks_highest_serial` for
non-PING reasons, and apply a trailing ackinfo when present. -/
def ackBookkeeping (s : CallState) (pkt : AckPkt) : CallState × List OutAction :=
  let ioffset := WIRE_HDR_SIZE + ACK_HDR_SIZE + pkt.nAcks + 3
  let infoPresent := decide (pkt.skb_len ≥ ioffset + ACKINFO_SIZE)
  let s := { s with acks_latest_ts := pkt.tstamp,
                    acks_first_seq := pkt.first_soft_ack,
                    acks_prev_seq := pkt.prev_pkt }
  let s := if pkt.reason ≠ ACK_PING ∧ seq_after pkt.acked_serial s.acks_highest_serial
           then { s with acks_highest_serial := pkt.acked_serial } else s
  if infoPresent && decide (pkt.info_rxMTU ≠ 0) then
    rxrpc_receive_ackinfo s pkt.info_rxMTU pkt.info_maxMTU pkt.info_rwind
  else (s, [])

/-- The Tx-side tail of `rxrpc_receive_ack` (receive.c lines 928-968): the
"AK0" guard, the transmit-state guard, the "AKW"/"AKN" validation, Tx
rotation, soft-ACK scanning, the lost-reply ping and congestion
management. -/
def ackTxPart (s : CallState) (pkt : AckPkt) (now : Nat)
    (acts : List OutAction) : CallState × List OutAction :=
  let offset := WIRE_HDR_SIZE + ACK_HDR_SIZE
  let ackSerial := pkt.serial
  let firstSoftAck := pkt.first_soft_ack
  let hardAck := u32sub firstSoftAck 1
  let nrAcks := pkt.nAcks
  let sum : AckSummary :=
    { emptySummary with ack_reason := if pkt.reason < 10 then pkt.reason else 10 }
  if firstSoftAck = 0 then
    let r := rxrpc_proto_abort s
    (r.1, acts ++ r.2)
  else if !(s.state = CallPhase.clientSendRequest ∨ s.state = CallPhase.clientAwaitReply ∨
            s.state = CallPhase.serverSendReply ∨ s.state = CallPhase.serverAwaitAck : Bool) then
    (s, acts)
  else if seq_before hardAck s.acks_hard_ack || seq_after hardAck s.tx_top then
    let r := rxrpc_proto_abort s
    (r.1, acts ++ r.2)
  else if nrAcks > u32sub s.tx_top hardAck then
    let r := rxrpc_proto_abort s
    (r.1, acts ++ r.2)
  else
  let rot :=
    if seq_after hardAck s.acks_hard_ack then
      let r := rxrpc_rotate_tx_window s hardAck sum
      if r.2.2.1 then
        let e := rxrpc_end_tx_phase r.1 false
        (e.1, r.2.1, acts ++ r.2.2.2 ++ e.2.2, true)
      else (r.1, r.2.1, acts ++ r.2.2.2, false)
    else (s, sum, acts, false)
  let s := rot.1
  let sum := rot.2.1
  let acts := rot.2.2.1
  if rot.2.2.2 then (s, acts)
  else
  if nrAcks > 0 ∧ (offset : Int) > (pkt.skb_len : Int) - (nrAcks : Int) then
    let r := rxrpc_proto_abort s
    (r.1, acts ++ r.2)
  else
    let sa := if nrAcks > 0 then rxrpc_receive_soft_acks s (pkt.acks.take nrAcks) firstSoftAck sum
              else (s, sum)
    let s := sa.1
    let sum := sa.2
    let pingActs : List OutAction :=
      if s.tx_last ∧ sum.nr_acks = u32sub s.tx_top hardAck ∧ s.is_client then
        [OutAction.proposePing ackSerial]
      else []
    let r := rxrpc_congestion_management s pkt.tstamp now sum
    (r.1, acts ++ pingActs ++ r.2.2)

/-- The tail of `rxrpc_receive_ack` from the NAT/migration shortcuts on
(receive.c lines 867-968), taking the call state after RTT matching and the
actions already emitted: NAT shortcuts, the monotonicity check, then
bookkeeping and the Tx-side tail. -/
def rxrpc_receive_ack_body (s : CallState) (pkt : AckPkt) (now : Nat)
    (acts : List OutAction) : CallState × List OutAction :=
  if pkt.reason = ACK_EXCEEDS_WINDOW ∧ pkt.first_soft_ack = 1 ∧ pkt.prev_pkt = 0 ∧
     s.is_client then
    let r := rxrpc_set_call_completion s Completion.remotelyAborted 0 (-102)
    (r.1, acts)
  else if pkt.reason = ACK_OUT_OF_SEQUENCE ∧ pkt.first_soft_ack = 1 ∧ pkt.prev_pkt = 0 ∧
          s.acks_hard_ack = 0 ∧ s.is_client then
    let r := rxrpc_set_call_completion s Completion.remotelyAborted 0 (-102)
    (r.1, acts)
  else if !rxrpc_is_ack_valid s pkt.first_soft_ack pkt.prev_pkt then
    (s, acts)
  else
    let bk := ackBookkeeping s pkt
    ackTxPart bk.1 pkt now (acts ++ bk.2)

/-- The RTT-matching dispatch of `rxrpc_receive_ack` (receive.c lines
842-856), keyed on the ACK reason. -/
def ackRttMatch (s : CallState) (pkt : AckPkt) : CallState × List OutAction :=
  if pkt.reason = ACK_PING_RESPONSE then
    rxrpc_complete_rtt_probe s pkt.tstamp pkt.acked_serial pkt.serial RttRxKind.pingResponse
  else if pkt.reason = ACK_REQUESTED then
    rxrpc_complete_rtt_probe s pkt.tstamp pkt.acked_serial pkt.serial RttRxKind.requestedAck
  else if pkt.acked_serial ≠ 0 then
    rxrpc_complete_rtt_probe s pkt.tstamp pkt.acked_serial pkt.serial RttRxKind.cancel
  else (s, [])

/-- The reactive replies of `rxrpc_receive_ack` (receive.c lines 858-865):
answer a PING, or honour REQUEST_ACK. -/
def ackReactActs (pkt : AckPkt) : List OutAction :=
  if pkt.reason = ACK_PING then [OutAction.sendAck ACK_PING_RESPONSE pkt.serial]
  else if pkt.request_ack then [OutAction.sendAck ACK_REQUESTED pkt.serial]
  else []

/-- `rxrpc_receive_ack` (receive.c line 811): process an ACK packet — parse
the ack header (aborting "XAK" when the buffer is too short), run RTT
matching and the reactive ACK replies, then the remainder of the
processing. -/
def rxrpc_receive_ack (s : CallState) (pkt : AckPkt) (now : Nat) :
    CallState × List OutAction :=
  if pkt.skb_len < WIRE_HDR_SIZE + ACK_HDR_SIZE then
    rxrpc_proto_abort s
  else
    let rtt := ackRttMatch s pkt
    rxrpc_receive_ack_body rtt.1 pkt now (rtt.2 ++ ackReactActs pkt)

/-- A quiescent call state used as the base of the concrete test states:
window at 1, empty queues, cleared SACK table, client in the receive-reply
phase. -/
def baseState : CallState :=
  { window := 1
    wtop := 1
    rx_winsize := 4
    ackr_sack_table := List.replicate 256 false
    rx_queue := []
    rx_oos_queue := []
    nr_jumbo_bad := 0
    rx_highest_seq := 0
    ackr_nr_unacked := 0
    ackr_reason := 0
    rx_last := false
    tx_last := false
    tx_all_acked := false
    retrans_timeout := false
    state := CallPhase.clientRecvReply
    completion := none
    is_client := true
    tx_phase := false
    tx_top := 0
    tx_buffer := []
    tx_winsize := 64
    acks_hard_ack := 0
    acks_first_seq := 0
    acks_prev_seq := 0
    acks_lowest_nak := 0
    acks_highest_serial := 0
    acks_latest_ts := 0
    tx_last_sent := 0
    cong_mode := CongMode.slowStart
    cong_cwnd := 4
    cong_ssthresh := 65535
    cong_dup_acks := 0
    cong_cumul_acks := 0
    cong_extra := 0
    cong_tstamp := 0
    rtt_pend := List.replicate 4 false
    rtt_avail := List.replicate 4 true
    rtt_serial := List.replicate 4 0
    rtt_sent_at := List.replicate 4 0
    peer_srtt_us := 0
    peer_rtt_count := 0
    peer_maxdata := 65535
    peer_mtu := 65563
    peer_hdrsize := 28
    resend_at := 0
    delay_ack_at := 0
    next_req_timo := 0
    expect_req_by := 0 }

/-- Plain (non-LAST, non-JUMBO, no REQUEST_ACK) DATA packet with the given
seq and serial. -/
def plainPkt (seq serial : Nat) : SubPkt :=
  { seq := seq, serial := serial, flags := { last := false, request_ack := false, jumbo := false } }

/-- A call state holding seq 3 out of order: window 1, wtop 4, SACK bit 3
set, seq 3 buffered. -/
def oosHeldState : CallState :=
  { baseState with wtop := 4,
                   ackr_sack_table := (List.replicate 256 false).set 3 true,
                   rx_oos_queue := [plainPkt 3 13] }

/-- A duplicate of the held seq-3 packet arriving as a jumbo subpacket. -/
def jumboDupPkt : SubPkt :=
  { seq := 3, serial := 21, flags := { last := false, request_ack := false, jumbo := true } }

/-- A duplicate of the held seq-3 packet arriving as a plain DATA packet. -/
def plainDupPkt : SubPkt := plainPkt 3 22

/-- The C4 scenario's initial call state: CONGEST_AVOIDANCE with `cwnd=10`,
`ssthresh=8` and 8 packets in flight (`tx_top=8`, `acks_hard_ack=0`). -/
def c4State : CallState :=
  { baseState with cong_mode := CongMode.congestAvoidance, cong_cwnd := 10,
                   cong_ssthresh := 8, tx_top := 8, acks_hard_ack := 0,
                   state := CallPhase.clientAwaitReply }

/-- The C4 scenario's per-ACK summary: `saw_nacks` and no `new_low_nack`,
zero soft ACKs (so `flight_size = 8`). -/
def c4Summary : AckSummary := { emptySummary with saw_nacks := true }

/-- Iterate `rxrpc_congestion_management` over `n` copies of the C4
summary, collecting the emitted actions. -/
def c4Run (n : Nat) : CallState × List OutAction :=
  (List.range n).foldl
    (fun sa _ =>
      let r := rxrpc_congestion_management sa.1 10 0 c4Summary
      (r.1, sa.2 ++ r.2.2))
    (c4State, [])

/-- Flags of a plain non-LAST, non-JUMBO DATA packet without REQUEST_ACK. -/
def tailFlags : PktFlags := { last := false, request_ack := false, jumbo := false }

/-- A call that has already charged four bad jumbos. -/
def c3State : CallState := { baseState with nr_jumbo_bad := 4 }

/-- A two-subpacket jumbo DATA packet: first subpacket seq 1 (JUMBO flag
set), non-jumbo tail seq 2, with 100 bytes of tail payload. -/
def c3Jumbo : DataSkb :=
  { seq := 1, serial := 7,
    flags := { last := false, request_ack := false, jumbo := true },
    securityIndex := 0, shared := false,
    len := WIRE_HDR_SIZE + JUMBO_SUBPKTLEN + 100,
    jhdrs := [tailFlags] }

/-- An allocation oracle under which every allocation succeeds. -/
def allocAlways : Nat → Bool := fun _ => true

/-- An allocation oracle under which every allocation fails. -/
def allocNever : Nat → Bool := fun _ => false

/-- Processing the two-subpacket jumbo on the jumbo-refusing call. -/
def c3Run : CallState × List OutAction × Nat :=
  rxrpc_receive_data allocAlways 0 0 c3State c3Jumbo

/-- A shared encrypted DATA packet, requiring an unshare before in-place
decryption. -/
def c8SecureSkb : DataSkb :=
  { seq := 1, serial := 5, flags := tailFlags, securityIndex := 1,
    shared := true, len := 128, jhdrs := [] }

/-- A call holding seq 2 out of order (window 1, wtop 3, SACK bit 2 set). -/
def c6State : CallState :=
  { baseState with wtop := 3,
                   ackr_sack_table := (List.replicate 256 false).set 2 true,
                   rx_oos_queue := [plainPkt 2 12] }

/-- The in-order seq-1 packet with REQUEST_ACK set. -/
def c6ReqPkt : SubPkt :=
  { seq := 1, serial := 11, flags := { last := false, request_ack := true, jumbo := false } }

/-- States `t` and `s` differ at most in the RTT probe bookkeeping
(`rtt_pend`, `rtt_avail`). -/
def RttOnlyDiff (s t : CallState) : Prop :=
  t = { s with rtt_pend := t.rtt_pend, rtt_avail := t.rtt_avail }

/-- A transmitting client call whose last accepted ACK carried
`firstPacket = 9`, `previousPacket = 5`. -/
def c5State : CallState :=
  { baseState with state := CallPhase.clientAwaitReply, tx_top := 10,
                   acks_first_seq := 9, acks_prev_seq := 5 }

/-- An ACK whose `firstPacket = 3` has regressed behind the recorded
`acks_first_seq = 9`. -/
def c5RegressedAck : AckPkt :=
  { serial := 70, request_ack := false, tstamp := 5, skb_len := 42,
    reason := ACK_PING_RESPONSE, acked_serial := 0, first_soft_ack := 3,
    prev_pkt := 0, nAcks := 0, acks := [], info_rxMTU := 0, info_maxMTU := 0,
    info_rwind := 0, info_jumbo_max := 0 }

/-- A transmitting client call with ten outbound packets in flight. -/
def c7State : CallState :=
  { baseState with state := CallPhase.clientAwaitReply, tx_top := 10,
                   tx_buffer := (List.range 10).map (fun i => { seq := i + 1, last := i = 9 }) }

/-- An ACK claiming `firstPacket = 15`, i.e. a hard-ACK of 14 beyond
`tx_top = 10`. -/
def c7BadAck : AckPkt :=
  { serial := 71, request_ack := false, tstamp := 5, skb_len := 42,
    reason := ACK_PING_RESPONSE, acked_serial := 0, first_soft_ack := 15,
    prev_pkt := 0, nAcks := 0, acks := [], info_rxMTU := 0, info_maxMTU := 0,
    info_rwind := 0, info_jumbo_max := 0 }

/-- Well-formedness of the receive window: in-range 32-bit fields, a window
span of at most `rx_winsize` (itself between 1 and `SACK_SIZE`), a full-size
SACK table, and an out-of-order queue sorted by window-relative distance
whose members sit strictly inside `(window, wtop)` with their SACK bits
set. -/
def RxInv (s : CallState) : Prop :=
  s.window < U32 ∧
  s.wtop < U32 ∧
  1 ≤ s.rx_winsize ∧
  s.rx_winsize ≤ SACK_SIZE ∧
  s.ackr_sack_table.length = SACK_SIZE ∧
  u32sub s.wtop s.window ≤ s.rx_winsize ∧
  (s.rx_oos_queue.map (fun q => u32sub q.seq s.window)).Pairwise (· < ·) ∧
  (∀ q ∈ s.rx_oos_queue, q.seq < U32 ∧
      1 ≤ u32sub q.seq s.window ∧
      u32sub q.seq s.window < u32sub s.wtop s.window ∧
      s.ackr_sack_table.getD (q.seq % SACK_SIZE) false = true)

instance (s : CallState) : Decidable (RxInv s) := by
  unfold RxInv
  infer_instance

/-- A call that has already delivered seqs 1..4 (window 5). -/
def c9DeliveredState : CallState :=
  { baseState with window := 5, wtop := 5, rx_highest_seq := 6 }

/-- A jumbo-refusing call (four bad jumbos charged) that has already
delivered seqs 1..4. -/
def c9NospaceState : CallState :=
  { baseState with window := 5, wtop := 5, nr_jumbo_bad := 4, rx_highest_seq := 6 }

/-- A replay of the already-delivered seq 1 arriving as a jumbo
subpacket. -/
def c9JumboReplay : SubPkt :=
  { seq := 1, serial := 31, flags := { last := false, request_ack := false, jumbo := true } }

/-- Fold a list of DATA subpackets through `rxrpc_receive_data_one`,
keeping the call state. -/
def runDataOne (s : CallState) (ps : List SubPkt) : CallState :=
  ps.foldl (fun st q => (rxrpc_receive_data_one st q).1) s

/-!  Theorems: sequence-arithmetic toolkit, then the claim theorems. -/

theorem u32sub_lt (a b : Nat) : u32sub a b < U32 := by
  unfold u32sub U32
  omega

theorem u32sub_spec (a b : Nat) (ha : a < U32) (hb : b < U32) :
    u32sub a b = if b ≤ a then a - b else U32 + a - b := by
  unfold u32sub U32 at *
  split <;> omega

theorem seq_after_iff (a b : Nat) :
    seq_after a b = true ↔ (0 < u32sub a b ∧ u32sub a b < HALF32) := by
  have h := u32sub_lt a b
  unfold seq_after s32
  rw [Nat.mod_eq_of_lt h]
  unfold U32 HALF32 at *
  split <;> simp <;> omega

theorem seq_before_iff (a b : Nat) :
    seq_before a b = true ↔ HALF32 ≤ u32sub a b := by
  have h := u32sub_lt a b
  unfold seq_before s32
  rw [Nat.mod_eq_of_lt h]
  unfold U32 HALF32 at *
  split <;> simp <;> omega

theorem seq_after_eq_iff (a b : Nat) :
    seq_after_eq a b = true ↔ u32sub a b < HALF32 := by
  have h := u32sub_lt a b
  unfold seq_after_eq s32
  rw [Nat.mod_eq_of_lt h]
  unfold U32 HALF32 at *
  split <;> simp <;> omega

theorem seq_before_eq_iff (a b : Nat) :
    seq_before_eq a b = true ↔ (u32sub a b = 0 ∨ HALF32 ≤ u32sub a b) := by
  have h := u32sub_lt a b
  unfold seq_before_eq s32
  rw [Nat.mod_eq_of_lt h]
  unfold U32 HALF32 at *
  split <;> simp <;> omega

theorem u32sub_eq_zero_iff (a b : Nat) (ha : a < U32) (hb : b < U32) :
    u32sub a b = 0 ↔ a = b := by
  rw [u32sub_spec a b ha hb]
  unfold U32 at *
  split <;> omega

/-- Distance from `w` is shifted down by one when the origin advances by one,
as long as it was positive. -/
theorem u32sub_succ_right (a w : Nat) (ha : a < U32) (hw : w < U32)
    (h : 1 ≤ u32sub a w) : u32sub a ((w + 1) % U32) = u32sub a w - 1 := by
  rcases Nat.lt_or_ge (w + 1) U32 with hlt | hge
  · rw [Nat.mod_eq_of_lt hlt] at *
    rw [u32sub_spec a w ha hw] at h ⊢
    rw [u32sub_spec a (w + 1) ha hlt]
    unfold U32 at *
    split at h <;> split <;> omega
  · have hw1 : w + 1 = U32 := by unfold U32 at *; omega
    have : (w + 1) % U32 = 0 := by rw [hw1]; simp
    rw [this]
    rw [u32sub_spec a w ha hw] at h ⊢
    rw [u32sub_spec a 0 ha (by unfold U32; omega)]
    unfold U32 at *
    split at h <;> split <;> omega

/-- Advancing the left argument by one increases the 32-bit distance by one,
as long as it does not wrap all the way around. -/
theorem u32sub_succ_left (a w : Nat) (ha : a < U32) (hw : w < U32)
    (h : u32sub a w + 1 < U32) : u32sub ((a + 1) % U32) w = u32sub a w + 1 := by
  rcases Nat.lt_or_ge (a + 1) U32 with hlt | hge
  · rw [Nat.mod_eq_of_lt hlt]
    rw [u32sub_spec a w ha hw] at h ⊢
    rw [u32sub_spec (a + 1) w hlt hw]
    unfold U32 at *
    split at h <;> split <;> omega
  · have ha1 : a + 1 = U32 := by unfold U32 at *; omega
    have h0 : (a + 1) % U32 = 0 := by rw [ha1]; simp
    rw [h0]
    rw [u32sub_spec a w ha hw] at h ⊢
    rw [u32sub_spec 0 w (by unfold U32; omega) hw]
    unfold U32 at *
    split at h <;> split <;> omega

/-- C2: the claim (and the source's own comments) say `nr_jumbo_bad` is
bumped exactly for duplicate subpackets *within a jumbo* and never for a
duplicate of a plain DATA packet.  The code does the reverse: on the
duplicate in-window branch a JUMBO-flagged subpacket leaves `nr_jumbo_bad`
unchanged, while a plain duplicate increments it
(`rxrpc_receive_dup_data` returns early when `is_jumbo` is set). -/
theorem c2_dup_data_inverted :
    (rxrpc_receive_data_one oosHeldState jumboDupPkt).1.nr_jumbo_bad = 0 ∧
    (rxrpc_receive_data_one oosHeldState jumboDupPkt).2 =
      [OutAction.sendAck ACK_DUPLICATE 21, OutAction.freeSkb] ∧
    (rxrpc_receive_data_one oosHeldState plainDupPkt).1.nr_jumbo_bad = 1 ∧
    (rxrpc_receive_data_one oosHeldState plainDupPkt).2 =
      [OutAction.sendAck ACK_DUPLICATE 22, OutAction.freeSkb] := by
  refine ⟨by decide, by decide, by decide, by decide⟩

/-- C4 (counterexample): after processing only three such ACK summaries the
controller is still in PACKET_LOSS with `dup_acks = 2` and has never
requested a resend — the claimed final state (FAST_RETRANSMIT with one
resend) is not reached. -/
theorem c4_three_acks_not_fast_retransmit :
    (c4Run 3).1.cong_mode = CongMode.packetLoss ∧
    (c4Run 3).1.cong_cwnd = 10 ∧
    (c4Run 3).1.cong_ssthresh = 8 ∧
    (c4Run 3).1.cong_dup_acks = 2 ∧
    (c4Run 3).2.count OutAction.resendReq = 0 ∧
    ¬((c4Run 3).1.cong_mode = CongMode.fastRetransmit ∧
      (c4Run 3).2.count OutAction.resendReq = 1) := by
  refine ⟨by decide, by decide, by decide, by decide, by decide, by decide⟩

/-- C4 (amended): the first nack-bearing ACK moves CONGEST_AVOIDANCE to
PACKET_LOSS with `dup_acks = 0`; each further one increments `dup_acks`, so
the fourth ACK is the one that reaches `dup_acks = 3` and enters
FAST_RETRANSMIT with `ssthresh = max(8/2,2) = 4`, `cwnd = ssthresh + 3 = 7`,
`dup_acks = 0`, requesting a resend exactly once over the four ACKs. -/
theorem c4_four_acks_fast_retransmit :
    (c4Run 4).1.cong_mode = CongMode.fastRetransmit ∧
    (c4Run 4).1.cong_ssthresh = 4 ∧
    (c4Run 4).1.cong_cwnd = 7 ∧
    (c4Run 4).1.cong_dup_acks = 0 ∧
    (c4Run 4).2.count OutAction.resendReq = 1 := by
  refine ⟨by decide, by decide, by decide, by decide, by decide⟩

theorem u32sub_self (a : Nat) : u32sub a a = 0 := by
  unfold u32sub U32
  omega

theorem u32sub_mod_right (a b : Nat) : u32sub a (b % U32) = u32sub a b := by
  unfold u32sub U32
  omega

theorem u32sub_mod_left (a b : Nat) : u32sub (a % U32) b = u32sub a b := by
  unfold u32sub U32
  omega

theorem u32sub_add_add (a b c : Nat) : u32sub (a + c) (b + c) = u32sub a b := by
  unfold u32sub U32
  omega

theorem seq_after_self (a : Nat) : seq_after a a = false := by
  have h := u32sub_self a
  unfold seq_after s32
  rw [h]
  simp [HALF32]

theorem seq_before_self (a : Nat) : seq_before a a = false := by
  have h := u32sub_self a
  unfold seq_before s32
  rw [h]
  simp [HALF32]

/-- Recover the absolute position from a window-relative distance. -/
theorem u32sub_as_dist (a w : Nat) (ha : a < U32) (hw : w < U32) :
    a = (w + u32sub a w) % U32 := by
  rw [u32sub_spec a w ha hw]
  unfold U32 at *
  split <;> omega

/-- The window base is never `after` the window limit
`window + rx_winsize - 1` (as computed with `u32` wraparound), for any
window size between 1 and `HALF32`. -/
theorem seq_after_wlimit (w n : Nat) (h1 : 1 ≤ n) (h2 : n ≤ HALF32) :
    seq_after w ((w + n + (U32 - 1)) % U32) = false := by
  have hmr := u32sub_mod_right w (w + n + (U32 - 1))
  unfold seq_after
  rw [decide_eq_false_iff_not]
  intro hpos
  rw [hmr] at hpos
  unfold HALF32 at h2
  unfold s32 u32sub U32 HALF32 at hpos
  split at hpos <;> omega

/-- On the NOSPACE guard (`JUMBO` flag with `nr_jumbo_bad > 3`),
`dataOneMain` refuses the packet with `ACK(NOSPACE)`, leaving everything but
`rx_highest_seq` untouched. -/
theorem dataOneMain_nospace (s : CallState) (p : SubPkt)
    (hj : p.flags.jumbo = true) (hb : s.nr_jumbo_bad > 3) :
    dataOneMain s p =
      (if seq_after p.seq s.rx_highest_seq then { s with rx_highest_seq := p.seq } else s,
       [OutAction.sendAck ACK_NOSPACE p.serial, OutAction.freeSkb]) := by
  unfold dataOneMain dataOneClassify
  by_cases h : seq_after p.seq s.rx_highest_seq <;> simp [h, hj, hb]

/-- C3 (counterexample): with `nr_jumbo_bad = 4 > 3`, a two-subpacket jumbo
is NOT refused before the split: the split runs, the JUMBO-flagged first
subpacket draws `ACK(NOSPACE)`, and the jumbo's non-JUMBO tail subpacket
(seq 2) is admitted to the receive window's out-of-order queue with
`ACK(OUT_OF_SEQUENCE)`, advancing `wtop` — so at least one subpacket of the
refused jumbo IS admitted, contradicting the claim. -/
theorem c3_jumbo_tail_still_admitted :
    c3Run.2.1 = [OutAction.sendAck ACK_NOSPACE 7, OutAction.freeSkb,
                 OutAction.sendAck ACK_OUT_OF_SEQUENCE 8, OutAction.notifySock] ∧
    c3Run.1.rx_oos_queue = [{ seq := 2, serial := 8, flags := tailFlags }] ∧
    c3Run.1.wtop = 3 ∧
    c3Run.1.state ≠ CallPhase.complete := by
  refine ⟨by decide, by decide, by decide, by decide⟩

/-- C3 (amended): once `nr_jumbo_bad > 3`, every individual DATA subpacket
that carries the JUMBO flag (and does not trip the LAST-packet guard) is
refused with `ACK(NOSPACE)` at entry to per-subpacket DATA processing and is
not admitted: window, wtop, the SACK table, both receive queues,
`nr_jumbo_bad` and the call phase are all unchanged. -/
theorem c3_jumbo_subpackets_refused (s : CallState) (p : SubPkt)
    (hj : p.flags.jumbo = true) (hl : p.flags.last = false)
    (hg : (s.rx_last && seq_after_eq p.seq s.wtop) = false)
    (hb : s.nr_jumbo_bad > 3) :
    (rxrpc_receive_data_one s p).2 =
      [OutAction.sendAck ACK_NOSPACE p.serial, OutAction.freeSkb] ∧
    (rxrpc_receive_data_one s p).1.window = s.window ∧
    (rxrpc_receive_data_one s p).1.wtop = s.wtop ∧
    (rxrpc_receive_data_one s p).1.rx_queue = s.rx_queue ∧
    (rxrpc_receive_data_one s p).1.rx_oos_queue = s.rx_oos_queue ∧
    (rxrpc_receive_data_one s p).1.ackr_sack_table = s.ackr_sack_table ∧
    (rxrpc_receive_data_one s p).1.nr_jumbo_bad = s.nr_jumbo_bad ∧
    (rxrpc_receive_data_one s p).1.state = s.state := by
  unfold rxrpc_receive_data_one
  rw [hl]
  simp only [Bool.false_eq_true, if_false, hg]
  rw [dataOneMain_nospace s p hj hb]
  by_cases h : seq_after p.seq s.rx_highest_seq <;> simp [h]

/-- C3 witness: the amended refusal at a concrete JUMBO subpacket. -/
theorem c3_jumbo_subpackets_refused_witness :
    (rxrpc_receive_data_one c3State jumboDupPkt).2 =
      [OutAction.sendAck ACK_NOSPACE 21, OutAction.freeSkb] ∧
    (rxrpc_receive_data_one c3State jumboDupPkt).1.rx_oos_queue = c3State.rx_oos_queue :=
  ⟨(c3_jumbo_subpackets_refused c3State jumboDupPkt (by decide) (by decide)
      (by decide) (by decide)).1,
   (c3_jumbo_subpackets_refused c3State jumboDupPkt (by decide) (by decide)
      (by decide) (by decide)).2.2.2.2.1⟩

/-- C8 (counterexample): a clone failure while splitting a perfectly
ordinary jumbo does NOT merely drop the offending packet — the whole call is
protocol-aborted ("VLD"): completion becomes locally-aborted with
`RX_PROTOCOL_ERROR` and an ABORT packet is emitted. -/
theorem c8_clone_failure_aborts_call :
    (rxrpc_receive_data allocNever 0 0 baseState c3Jumbo).1.state = CallPhase.complete ∧
    (rxrpc_receive_data allocNever 0 0 baseState c3Jumbo).1.completion =
      some ⟨Completion.locallyAborted, RX_PROTOCOL_ERROR, -74⟩ ∧
    (rxrpc_receive_data allocNever 0 0 baseState c3Jumbo).2.1 =
      [OutAction.sendAbortPkt, OutAction.notifySock, OutAction.freeSkb] := by
  refine ⟨by decide, by decide, by decide⟩

/-- C8 (amended): an allocation failure while unsharing a DATA packet for
in-place decryption drops only that packet — the call state is completely
unchanged and no abort is emitted; but an allocation failure while cloning a
jumbo subpacket during the split protocol-aborts the call ("VLD"). -/
theorem c8_unshare_drop_clone_abort :
    (∀ (s : CallState) (skb : DataSkb) (allocIdx now : Nat) (alloc : Nat → Bool),
      s.state ≠ CallPhase.complete → skb.securityIndex ≠ 0 → skb.shared = true →
      alloc allocIdx = false →
      rxrpc_receive_data alloc allocIdx now s skb = (s, [OutAction.freeSkb], allocIdx + 1)) ∧
    (rxrpc_receive_data allocNever 0 0 baseState c3Jumbo).1.state = CallPhase.complete := by
  constructor
  · intro s skb allocIdx now alloc hs hsec hsh hal
    unfold rxrpc_receive_data
    simp [hs, hsec, hsh, hal]
  · decide

/-- C8 witness: the unshare-failure clause at a concrete shared encrypted
packet. -/
theorem c8_unshare_drop_clone_abort_witness :
    rxrpc_receive_data allocNever 0 0 baseState c8SecureSkb =
      (baseState, [OutAction.freeSkb], 1) :=
  c8_unshare_drop_clone_abort.1 baseState c8SecureSkb 0 0 allocNever
    (by decide) (by decide) (by decide) rfl

/-- C6 (counterexample): an in-order DATA packet with REQUEST_ACK set whose
admission also drains a held out-of-order packet is answered with
`ACK(REQUESTED)`, not `ACK(DELAY)` — the code chooses the ACK reason before
the drain, with REQUEST_ACK taking priority, contradicting the claim's
"drained implies DELAY" ordering. -/
theorem c6_request_ack_beats_drain :
    (rxrpc_receive_data_one c6State c6ReqPkt).1.rx_queue =
      [c6ReqPkt, plainPkt 2 12] ∧
    (rxrpc_receive_data_one c6State c6ReqPkt).1.window = 3 ∧
    (rxrpc_receive_data_one c6State c6ReqPkt).2 = [OutAction.sendAck ACK_REQUESTED 11] ∧
    (rxrpc_receive_data_one c6State c6ReqPkt).2 ≠ [OutAction.sendAck ACK_DELAY 11] := by
  refine ⟨by decide, by decide, by decide, by decide⟩

/-- On in-order admission (`seq == window`), `dataOneMain` picks the ACK
reason before draining the out-of-order queue: REQUEST_ACK wins, then a
non-empty OOS queue gives `ACK(DELAY)`, and otherwise the unacked counter is
bumped and a delayed ACK proposed. -/
theorem dataOneMain_inorder (s : CallState) (p : SubPkt)
    (hw : p.seq = s.window)
    (h1 : 1 ≤ s.rx_winsize) (h2 : s.rx_winsize ≤ HALF32)
    (hjg : (p.flags.jumbo && decide (s.nr_jumbo_bad > 3)) = false) :
    (dataOneMain s p).2 =
      (if p.flags.request_ack then [OutAction.sendAck ACK_REQUESTED p.serial]
       else if !s.rx_oos_queue.isEmpty then [OutAction.sendAck ACK_DELAY p.serial]
       else [OutAction.delayAck p.serial]) ∧
    (dataOneMain s p).1.ackr_nr_unacked =
      (if !p.flags.request_ack && s.rx_oos_queue.isEmpty then s.ackr_nr_unacked + 1
       else s.ackr_nr_unacked) := by
  unfold dataOneMain dataOneClassify rxrpc_receive_queue_data rxrpc_receive_update_ack_window
  rw [hw]
  by_cases hh : seq_after s.window s.rx_highest_seq <;>
  by_cases hr : p.flags.request_ack <;>
  by_cases he : s.rx_oos_queue.isEmpty = true <;>
    simp only [hh, hr, he, hjg, seq_before_self, seq_after_wlimit s.window s.rx_winsize h1 h2,
      if_true, if_false, Bool.false_eq_true, Bool.true_and, Bool.false_and, Bool.and_true,
      Bool.and_false, Bool.not_true, Bool.not_false, Option.isNone_some, Option.isNone_none,
      ite_true, ite_false, Bool.true_eq_false] <;>
    (cases hdd : (drainOos ((s.window + 1) % U32) s.rx_oos_queue).2.1 <;>
      simp only [hdd] <;> (constructor <;> first | trivial | rfl))

/-- C6 (amended): for an admitted in-order DATA packet, the ACK decision
follows the code's priority — REQUEST_ACK yields `ACK(REQUESTED)`;
otherwise, if the out-of-order queue was non-empty at admission time (the
condition the code tests before the drain), `ACK(DELAY)`; otherwise the
unacked count is incremented and a delayed ACK is proposed. -/
theorem c6_inorder_ack_priority (s : CallState) (p : SubPkt)
    (hw : p.seq = s.window) (h1 : 1 ≤ s.rx_winsize) (h2 : s.rx_winsize ≤ HALF32)
    (hjg : (p.flags.jumbo && decide (s.nr_jumbo_bad > 3)) = false)
    (hpl : p.flags.last = true → (s.rx_last && decide ((p.seq + 1) % U32 ≠ s.wtop)) = false)
    (hpn : p.flags.last = false → (s.rx_last && seq_after_eq p.seq s.wtop) = false) :
    (rxrpc_receive_data_one s p).2 =
      (if p.flags.request_ack then [OutAction.sendAck ACK_REQUESTED p.serial]
       else if !s.rx_oos_queue.isEmpty then [OutAction.sendAck ACK_DELAY p.serial]
       else [OutAction.delayAck p.serial]) ∧
    (rxrpc_receive_data_one s p).1.ackr_nr_unacked =
      (if !p.flags.request_ack && s.rx_oos_queue.isEmpty then s.ackr_nr_unacked + 1
       else s.ackr_nr_unacked) := by
  unfold rxrpc_receive_data_one
  by_cases hl : p.flags.last = true
  · have hc := hpl hl
    simp only [hl, if_true, ite_true]
    dsimp only
    simp only [hc, Bool.false_eq_true, if_false, ite_false]
    exact dataOneMain_inorder { s with rx_last := true } p hw h1 h2 hjg
  · have hl' : p.flags.last = false := by revert hl; cases p.flags.last <;> simp
    have hc := hpn hl'
    simp only [hl', Bool.false_eq_true, if_false, ite_false, hc]
    exact dataOneMain_inorder s p hw h1 h2 hjg

/-- C6 witness: the amended priority at the concrete gap-holding state —
REQUEST_ACK wins even though the drain delivers a held packet. -/
theorem c6_inorder_ack_priority_witness :
    (rxrpc_receive_data_one c6State c6ReqPkt).2 = [OutAction.sendAck ACK_REQUESTED 11] ∧
    (rxrpc_receive_data_one c6State c6ReqPkt).1.ackr_nr_unacked = 0 := by
  have h := c6_inorder_ack_priority c6State c6ReqPkt (by decide) (by decide) (by decide)
    (by decide) (fun hl => absurd hl (by decide)) (fun _ => by decide)
  exact ⟨h.1.trans (by decide), h.2.trans (by decide)⟩

theorem seq_after_eq_self (a : Nat) : seq_after_eq a a = true := by
  have h := u32sub_self a
  unfold seq_after_eq s32
  rw [h]
  simp [HALF32]

theorem seq_before_bnot_after_eq (a b : Nat) : seq_before a b = !seq_after_eq a b := by
  unfold seq_before seq_after_eq
  by_cases h : s32 (u32sub a b) < 0
  · have h2 : ¬(0 ≤ s32 (u32sub a b)) := by omega
    simp [h, h2]
  · have h2 : 0 ≤ s32 (u32sub a b) := by omega
    simp [h, h2]

theorem seq_eq_of_not_after_not_before (a b : Nat) (ha : a < U32) (hb : b < U32)
    (h1 : seq_after a b = false) (h2 : seq_before a b = false) : a = b := by
  have hz : u32sub a b = 0 := by
    by_contra hnz
    have d1 : ¬(0 < u32sub a b ∧ u32sub a b < HALF32) := by
      intro hc
      have := (seq_after_iff a b).mpr hc
      rw [h1] at this
      exact Bool.false_ne_true this
    have d2 : ¬(HALF32 ≤ u32sub a b) := by
      intro hc
      have := (seq_before_iff a b).mpr hc
      rw [h2] at this
      exact Bool.false_ne_true this
    omega
  exact (u32sub_eq_zero_iff a b ha hb).mp hz

theorem rttOnlyDiff_refl (s : CallState) : RttOnlyDiff s s := rfl

theorem rttOnlyDiff_trans {a b c : CallState} (h1 : RttOnlyDiff a b)
    (h2 : RttOnlyDiff b c) : RttOnlyDiff a c := by
  unfold RttOnlyDiff at *
  exact h2.trans (by rw [h1])

theorem rttProbeStep_diff (rt ak as kind) (acc : CallState × List OutAction) (i : Nat) :
    RttOnlyDiff acc.1 (rttProbeStep rt ak as kind acc i).1 := by
  unfold rttProbeStep RttOnlyDiff
  dsimp only
  split_ifs <;> rfl

theorem complete_rtt_probe_diff (s : CallState) (rt ak as : Nat) (kind : RttRxKind) :
    RttOnlyDiff s (rxrpc_complete_rtt_probe s rt ak as kind).1 := by
  unfold rxrpc_complete_rtt_probe
  simp only [List.foldl_cons, List.foldl_nil]
  exact rttOnlyDiff_trans (rttOnlyDiff_trans (rttOnlyDiff_trans
    (rttProbeStep_diff rt ak as kind (s, []) 0)
    (rttProbeStep_diff rt ak as kind _ 1))
    (rttProbeStep_diff rt ak as kind _ 2))
    (rttProbeStep_diff rt ak as kind _ 3)

theorem ackRttMatch_diff (s : CallState) (pkt : AckPkt) :
    RttOnlyDiff s (ackRttMatch s pkt).1 := by
  unfold ackRttMatch
  split_ifs <;> first
    | exact complete_rtt_probe_diff s pkt.tstamp pkt.acked_serial pkt.serial _
    | exact rttOnlyDiff_refl s

/-- On a failed monotonicity check, `rxrpc_receive_ack_body` leaves the
whole Tx-side state untouched. -/
theorem receive_ack_body_invalid_frame (t : CallState) (pkt : AckPkt) (now : Nat)
    (acts : List OutAction)
    (hinv : rxrpc_is_ack_valid t pkt.first_soft_ack pkt.prev_pkt = false) :
    (rxrpc_receive_ack_body t pkt now acts).1.acks_first_seq = t.acks_first_seq ∧
    (rxrpc_receive_ack_body t pkt now acts).1.acks_prev_seq = t.acks_prev_seq ∧
    (rxrpc_receive_ack_body t pkt now acts).1.acks_hard_ack = t.acks_hard_ack ∧
    (rxrpc_receive_ack_body t pkt now acts).1.acks_lowest_nak = t.acks_lowest_nak ∧
    (rxrpc_receive_ack_body t pkt now acts).1.tx_top = t.tx_top ∧
    (rxrpc_receive_ack_body t pkt now acts).1.tx_buffer = t.tx_buffer ∧
    (rxrpc_receive_ack_body t pkt now acts).1.tx_winsize = t.tx_winsize ∧
    (rxrpc_receive_ack_body t pkt now acts).1.tx_last = t.tx_last ∧
    (rxrpc_receive_ack_body t pkt now acts).1.tx_all_acked = t.tx_all_acked ∧
    (rxrpc_receive_ack_body t pkt now acts).1.cong_mode = t.cong_mode ∧
    (rxrpc_receive_ack_body t pkt now acts).1.cong_cwnd = t.cong_cwnd ∧
    (rxrpc_receive_ack_body t pkt now acts).1.cong_ssthresh = t.cong_ssthresh ∧
    (rxrpc_receive_ack_body t pkt now acts).1.cong_dup_acks = t.cong_dup_acks ∧
    (rxrpc_receive_ack_body t pkt now acts).1.cong_cumul_acks = t.cong_cumul_acks ∧
    (rxrpc_receive_ack_body t pkt now acts).1.cong_extra = t.cong_extra := by
  unfold rxrpc_receive_ack_body rxrpc_set_call_completion
  dsimp only
  by_cases h1 : pkt.reason = ACK_EXCEEDS_WINDOW ∧ pkt.first_soft_ack = 1 ∧
      pkt.prev_pkt = 0 ∧ t.is_client = true
  · rw [if_pos h1]
    split <;> exact ⟨rfl, rfl, rfl, rfl, rfl, rfl, rfl, rfl, rfl, rfl, rfl, rfl, rfl, rfl, rfl⟩
  · rw [if_neg h1]
    by_cases h2 : pkt.reason = ACK_OUT_OF_SEQUENCE ∧ pkt.first_soft_ack = 1 ∧
        pkt.prev_pkt = 0 ∧ t.acks_hard_ack = 0 ∧ t.is_client = true
    · rw [if_pos h2]
      split <;> exact ⟨rfl, rfl, rfl, rfl, rfl, rfl, rfl, rfl, rfl, rfl, rfl, rfl, rfl, rfl, rfl⟩
    · rw [if_neg h2]
      rw [if_pos (show (!rxrpc_is_ack_valid t pkt.first_soft_ack pkt.prev_pkt) = true by
        rw [hinv]; rfl)]
      exact ⟨rfl, rfl, rfl, rfl, rfl, rfl, rfl, rfl, rfl, rfl, rfl, rfl, rfl, rfl, rfl⟩

/-- C5: `rxrpc_is_ack_valid` accepts exactly when `first_soft_ack` is after
`acks_first_seq`, or equals it and either `after_eq(prev_pkt,
acks_prev_seq)` or `before(prev_pkt, acks_first_seq + tx_winsize)` holds;
and every ACK failing the check is discarded with the entire Tx-side state
(`acks_first_seq`, `acks_prev_seq`, `acks_hard_ack`, Tx window, congestion
fields) unchanged. -/
theorem c5_ack_monotonicity_check :
    (∀ (s : CallState) (f pv : Nat), f < U32 → s.acks_first_seq < U32 →
      (rxrpc_is_ack_valid s f pv = true ↔
        (seq_after f s.acks_first_seq = true ∨
         (f = s.acks_first_seq ∧
          (seq_after_eq pv s.acks_prev_seq = true ∨
           seq_before pv ((s.acks_first_seq + s.tx_winsize) % U32) = true))))) ∧
    (∀ (s : CallState) (pkt : AckPkt) (now : Nat),
      WIRE_HDR_SIZE + ACK_HDR_SIZE ≤ pkt.skb_len →
      rxrpc_is_ack_valid s pkt.first_soft_ack pkt.prev_pkt = false →
      ((rxrpc_receive_ack s pkt now).1.acks_first_seq = s.acks_first_seq ∧
       (rxrpc_receive_ack s pkt now).1.acks_prev_seq = s.acks_prev_seq ∧
       (rxrpc_receive_ack s pkt now).1.acks_hard_ack = s.acks_hard_ack ∧
       (rxrpc_receive_ack s pkt now).1.acks_lowest_nak = s.acks_lowest_nak ∧
       (rxrpc_receive_ack s pkt now).1.tx_top = s.tx_top ∧
       (rxrpc_receive_ack s pkt now).1.tx_buffer = s.tx_buffer ∧
       (rxrpc_receive_ack s pkt now).1.tx_winsize = s.tx_winsize ∧
       (rxrpc_receive_ack s pkt now).1.tx_last = s.tx_last ∧
       (rxrpc_receive_ack s pkt now).1.tx_all_acked = s.tx_all_acked ∧
       (rxrpc_receive_ack s pkt now).1.cong_mode = s.cong_mode ∧
       (rxrpc_receive_ack s pkt now).1.cong_cwnd = s.cong_cwnd ∧
       (rxrpc_receive_ack s pkt now).1.cong_ssthresh = s.cong_ssthresh ∧
       (rxrpc_receive_ack s pkt now).1.cong_dup_acks = s.cong_dup_acks ∧
       (rxrpc_receive_ack s pkt now).1.cong_cumul_acks = s.cong_cumul_acks ∧
       (rxrpc_receive_ack s pkt now).1.cong_extra = s.cong_extra)) := by
  constructor
  · intro s f pv hf hb
    unfold rxrpc_is_ack_valid
    dsimp only
    by_cases h1 : seq_after f s.acks_first_seq = true
    · simp [h1]
    · have h1' : seq_after f s.acks_first_seq = false := by
        revert h1; cases seq_after f s.acks_first_seq <;> simp
      by_cases h2 : seq_before f s.acks_first_seq = true
      · simp only [h1', h2, Bool.false_eq_true, if_false, if_true]
        constructor
        · intro hc; exact absurd hc (by simp)
        · rintro (hc | ⟨rfl, -⟩)
          · exact hc
          · rw [seq_before_self] at h2; exact absurd h2 (by simp)
      · have h2' : seq_before f s.acks_first_seq = false := by
          revert h2; cases seq_before f s.acks_first_seq <;> simp
        have hef : f = s.acks_first_seq := seq_eq_of_not_after_not_before f _ hf hb h1' h2'
        simp only [h1', h2', Bool.false_eq_true, if_false, hef, true_and]
        by_cases h3 : seq_after_eq pv s.acks_prev_seq = true
        · simp [h3, seq_before_self]
        · have h3' : seq_after_eq pv s.acks_prev_seq = false := by
            revert h3; cases seq_after_eq pv s.acks_prev_seq <;> simp
          by_cases h4 : seq_after_eq pv ((s.acks_first_seq + s.tx_winsize) % U32) = true
          · simp [h3', h4, seq_before_bnot_after_eq, seq_after_eq_self]
          · have h4' : seq_after_eq pv ((s.acks_first_seq + s.tx_winsize) % U32) = false := by
              revert h4; cases seq_after_eq pv ((s.acks_first_seq + s.tx_winsize) % U32) <;> simp
            simp [h3', h4', seq_before_bnot_after_eq, seq_after_eq_self]
  · intro s pkt now hlen hinv
    unfold rxrpc_receive_ack
    rw [if_neg (by omega)]
    dsimp only
    have hdiff := ackRttMatch_diff s pkt
    unfold RttOnlyDiff at hdiff
    have hinv' : rxrpc_is_ack_valid (ackRttMatch s pkt).1 pkt.first_soft_ack pkt.prev_pkt = false := by
      rw [hdiff]; exact hinv
    have hfr := receive_ack_body_invalid_frame (ackRttMatch s pkt).1 pkt now
      ((ackRttMatch s pkt).2 ++ ackReactActs pkt) hinv'
    refine ⟨hfr.1.trans ?_, hfr.2.1.trans ?_, hfr.2.2.1.trans ?_, hfr.2.2.2.1.trans ?_,
      hfr.2.2.2.2.1.trans ?_, hfr.2.2.2.2.2.1.trans ?_, hfr.2.2.2.2.2.2.1.trans ?_,
      hfr.2.2.2.2.2.2.2.1.trans ?_, hfr.2.2.2.2.2.2.2.2.1.trans ?_,
      hfr.2.2.2.2.2.2.2.2.2.1.trans ?_, hfr.2.2.2.2.2.2.2.2.2.2.1.trans ?_,
      hfr.2.2.2.2.2.2.2.2.2.2.2.1.trans ?_, hfr.2.2.2.2.2.2.2.2.2.2.2.2.1.trans ?_,
      hfr.2.2.2.2.2.2.2.2.2.2.2.2.2.1.trans ?_,
      hfr.2.2.2.2.2.2.2.2.2.2.2.2.2.2.trans ?_⟩ <;>
    · rw [hdiff]

/-- C5 witness: the regressed ACK is discarded with the Tx state intact,
and a window-advancing `firstPacket` is accepted. -/
theorem c5_ack_monotonicity_check_witness :
    (rxrpc_receive_ack c5State c5RegressedAck 0).1.acks_first_seq = c5State.acks_first_seq ∧
    (rxrpc_receive_ack c5State c5RegressedAck 0).1.acks_hard_ack = c5State.acks_hard_ack ∧
    rxrpc_is_ack_valid c5State 10 0 = true :=
  ⟨(c5_ack_monotonicity_check.2 c5State c5RegressedAck 0 (by decide) (by decide)).1,
   (c5_ack_monotonicity_check.2 c5State c5RegressedAck 0 (by decide) (by decide)).2.2.1,
   (c5_ack_monotonicity_check.1 c5State 10 0 (by decide) (by decide)).mpr
     (Or.inl (by decide))⟩

theorem u32sub_antisymm (a b : Nat) :
    u32sub b a = if u32sub a b = 0 then 0 else U32 - u32sub a b := by
  unfold u32sub U32
  split <;> omega

theorem seq_before_eq_of_not_before (a b : Nat)
    (h : seq_before b a = false) : seq_before_eq a b = true := by
  have hab := u32sub_antisymm a b
  rw [seq_before_eq_iff]
  have hba : ¬(HALF32 ≤ u32sub b a) := by
    intro hc
    have := (seq_before_iff b a).mpr hc
    rw [h] at this
    exact Bool.false_ne_true this
  have h1 := u32sub_lt a b
  have h2 := u32sub_lt b a
  unfold U32 HALF32 at *
  split at hab <;> omega

theorem seq_before_eq_of_not_after (a b : Nat)
    (h : seq_after a b = false) : seq_before_eq a b = true := by
  rw [seq_before_eq_iff]
  have hna : ¬(0 < u32sub a b ∧ u32sub a b < HALF32) := by
    intro hc
    have := (seq_after_iff a b).mpr hc
    rw [h] at this
    exact Bool.false_ne_true this
  omega

set_option maxHeartbeats 1000000 in
theorem ackBookkeeping_frame (s : CallState) (pkt : AckPkt) :
    (ackBookkeeping s pkt).1.state = s.state ∧
    (ackBookkeeping s pkt).1.completion = s.completion ∧
    (ackBookkeeping s pkt).1.acks_hard_ack = s.acks_hard_ack ∧
    (ackBookkeeping s pkt).1.tx_top = s.tx_top ∧
    (ackBookkeeping s pkt).1.tx_buffer = s.tx_buffer ∧
    (ackBookkeeping s pkt).1.tx_last = s.tx_last ∧
    (ackBookkeeping s pkt).1.tx_all_acked = s.tx_all_acked ∧
    (ackBookkeeping s pkt).1.acks_lowest_nak = s.acks_lowest_nak ∧
    (ackBookkeeping s pkt).1.is_client = s.is_client := by
  unfold ackBookkeeping rxrpc_receive_ackinfo
  dsimp only
  split_ifs <;> exact ⟨rfl, rfl, rfl, rfl, rfl, rfl, rfl, rfl, rfl⟩

/-- On a violated Tx-rotation precondition, `ackTxPart` protocol-aborts the
call before any rotation. -/
theorem ackTxPart_guard_abort (u : CallState) (pkt : AckPkt) (now : Nat)
    (acts : List OutAction)
    (hst : u.state = CallPhase.clientSendRequest ∨ u.state = CallPhase.clientAwaitReply ∨
           u.state = CallPhase.serverSendReply ∨ u.state = CallPhase.serverAwaitAck)
    (hviol : ¬(seq_before_eq u.acks_hard_ack (u32sub pkt.first_soft_ack 1) = true ∧
               seq_before_eq (u32sub pkt.first_soft_ack 1) u.tx_top = true ∧
               pkt.nAcks ≤ u32sub u.tx_top (u32sub pkt.first_soft_ack 1))) :
    (ackTxPart u pkt now acts).1.state = CallPhase.complete ∧
    (ackTxPart u pkt now acts).1.completion =
      some ⟨Completion.locallyAborted, RX_PROTOCOL_ERROR, -74⟩ ∧
    OutAction.sendAbortPkt ∈ (ackTxPart u pkt now acts).2 ∧
    (ackTxPart u pkt now acts).1.acks_hard_ack = u.acks_hard_ack ∧
    (ackTxPart u pkt now acts).1.tx_buffer = u.tx_buffer ∧
    (ackTxPart u pkt now acts).1.tx_last = u.tx_last ∧
    (ackTxPart u pkt now acts).1.tx_all_acked = u.tx_all_acked ∧
    (ackTxPart u pkt now acts).1.acks_lowest_nak = u.acks_lowest_nak := by
  have hnc : ¬(u.state = CallPhase.complete) := by
    rcases hst with h | h | h | h <;> rw [h] <;> decide
  unfold ackTxPart rxrpc_proto_abort rxrpc_abort_call
  dsimp only
  by_cases h0 : pkt.first_soft_ack = 0
  · rw [if_pos h0, if_neg hnc]
    exact ⟨rfl, rfl, by simp, rfl, rfl, rfl, rfl, rfl⟩
  · rw [if_neg h0]
    rw [if_neg (show ¬((!decide (u.state = CallPhase.clientSendRequest ∨
        u.state = CallPhase.clientAwaitReply ∨ u.state = CallPhase.serverSendReply ∨
        u.state = CallPhase.serverAwaitAck)) = true) by simp [hst])]
    by_cases hakw : (seq_before (u32sub pkt.first_soft_ack 1) u.acks_hard_ack ||
        seq_after (u32sub pkt.first_soft_ack 1) u.tx_top) = true
    · rw [if_pos hakw, if_neg hnc]
      exact ⟨rfl, rfl, by simp, rfl, rfl, rfl, rfl, rfl⟩
    · have hx : seq_before (u32sub pkt.first_soft_ack 1) u.acks_hard_ack = false ∧
          seq_after (u32sub pkt.first_soft_ack 1) u.tx_top = false := by
        revert hakw
        cases seq_before (u32sub pkt.first_soft_ack 1) u.acks_hard_ack <;>
        cases seq_after (u32sub pkt.first_soft_ack 1) u.tx_top <;> simp
      have hA : seq_before_eq u.acks_hard_ack (u32sub pkt.first_soft_ack 1) = true :=
        seq_before_eq_of_not_before _ _ hx.1
      have hB : seq_before_eq (u32sub pkt.first_soft_ack 1) u.tx_top = true :=
        seq_before_eq_of_not_after _ _ hx.2
      have hC : u32sub u.tx_top (u32sub pkt.first_soft_ack 1) < pkt.nAcks := by
        by_contra hc
        exact hviol ⟨hA, hB, by omega⟩
      rw [if_neg hakw, if_pos (show pkt.nAcks > u32sub u.tx_top (u32sub pkt.first_soft_ack 1) from hC),
          if_neg hnc]
      exact ⟨rfl, rfl, by simp, rfl, rfl, rfl, rfl, rfl⟩

/-- C7: an accepted ACK processed in a transmitting state whose hard-ACK
violates `before_eq(acks_hard_ack, hard_ack) ∧ before_eq(hard_ack, tx_top)
∧ nr_acks ≤ tx_top - hard_ack` protocol-aborts the call (completion set to
locally-aborted with `RX_PROTOCOL_ERROR`, ABORT packet emitted) and performs
no Tx-window rotation: `acks_hard_ack`, the Tx buffer, the TX_LAST and
TX_ALL_ACKED flags and `acks_lowest_nak` are unchanged. -/
theorem c7_tx_rotation_guard (s : CallState) (pkt : AckPkt) (now : Nat)
    (hlen : WIRE_HDR_SIZE + ACK_HDR_SIZE ≤ pkt.skb_len)
    (hnat1 : ¬(pkt.reason = ACK_EXCEEDS_WINDOW ∧ pkt.first_soft_ack = 1 ∧
               pkt.prev_pkt = 0 ∧ s.is_client = true))
    (hnat2 : ¬(pkt.reason = ACK_OUT_OF_SEQUENCE ∧ pkt.first_soft_ack = 1 ∧
               pkt.prev_pkt = 0 ∧ s.acks_hard_ack = 0 ∧ s.is_client = true))
    (hval : rxrpc_is_ack_valid s pkt.first_soft_ack pkt.prev_pkt = true)
    (hst : s.state = CallPhase.clientSendRequest ∨ s.state = CallPhase.clientAwaitReply ∨
           s.state = CallPhase.serverSendReply ∨ s.state = CallPhase.serverAwaitAck)
    (hviol : ¬(seq_before_eq s.acks_hard_ack (u32sub pkt.first_soft_ack 1) = true ∧
               seq_before_eq (u32sub pkt.first_soft_ack 1) s.tx_top = true ∧
               pkt.nAcks ≤ u32sub s.tx_top (u32sub pkt.first_soft_ack 1))) :
    (rxrpc_receive_ack s pkt now).1.state = CallPhase.complete ∧
    (rxrpc_receive_ack s pkt now).1.completion =
      some ⟨Completion.locallyAborted, RX_PROTOCOL_ERROR, -74⟩ ∧
    OutAction.sendAbortPkt ∈ (rxrpc_receive_ack s pkt now).2 ∧
    (rxrpc_receive_ack s pkt now).1.acks_hard_ack = s.acks_hard_ack ∧
    (rxrpc_receive_ack s pkt now).1.tx_buffer = s.tx_buffer ∧
    (rxrpc_receive_ack s pkt now).1.tx_last = s.tx_last ∧
    (rxrpc_receive_ack s pkt now).1.tx_all_acked = s.tx_all_acked ∧
    (rxrpc_receive_ack s pkt now).1.acks_lowest_nak = s.acks_lowest_nak := by
  unfold rxrpc_receive_ack
  rw [if_neg (by omega)]
  dsimp only
  have hdiff := ackRttMatch_diff s pkt
  unfold RttOnlyDiff at hdiff
  have hnat1' : ¬(pkt.reason = ACK_EXCEEDS_WINDOW ∧ pkt.first_soft_ack = 1 ∧
      pkt.prev_pkt = 0 ∧ (ackRttMatch s pkt).1.is_client = true) := by
    rw [hdiff]; exact hnat1
  have hnat2' : ¬(pkt.reason = ACK_OUT_OF_SEQUENCE ∧ pkt.first_soft_ack = 1 ∧
      pkt.prev_pkt = 0 ∧ (ackRttMatch s pkt).1.acks_hard_ack = 0 ∧
      (ackRttMatch s pkt).1.is_client = true) := by
    rw [hdiff]; exact hnat2
  have hval' : rxrpc_is_ack_valid (ackRttMatch s pkt).1 pkt.first_soft_ack pkt.prev_pkt = true := by
    rw [hdiff]; exact hval
  unfold rxrpc_receive_ack_body
  rw [if_neg hnat1', if_neg hnat2']
  rw [if_neg (show ¬((!rxrpc_is_ack_valid (ackRttMatch s pkt).1 pkt.first_soft_ack
      pkt.prev_pkt) = true) by rw [hval']; simp)]
  dsimp only
  have hbk := ackBookkeeping_frame (ackRttMatch s pkt).1 pkt
  have ht1 : (ackBookkeeping (ackRttMatch s pkt).1 pkt).1.acks_hard_ack = s.acks_hard_ack :=
    hbk.2.2.1.trans (by rw [hdiff])
  have ht2 : (ackBookkeeping (ackRttMatch s pkt).1 pkt).1.tx_top = s.tx_top :=
    hbk.2.2.2.1.trans (by rw [hdiff])
  have hts : (ackBookkeeping (ackRttMatch s pkt).1 pkt).1.state = s.state :=
    hbk.1.trans (by rw [hdiff])
  have habort := ackTxPart_guard_abort (ackBookkeeping (ackRttMatch s pkt).1 pkt).1 pkt now
    ((ackRttMatch s pkt).2 ++ ackReactActs pkt ++ (ackBookkeeping (ackRttMatch s pkt).1 pkt).2)
    (by rw [hts]; exact hst)
    (by rw [ht1, ht2]; exact hviol)
  refine ⟨habort.1, habort.2.1, habort.2.2.1, habort.2.2.2.1.trans ht1,
    habort.2.2.2.2.1.trans (hbk.2.2.2.2.1.trans (by rw [hdiff])),
    habort.2.2.2.2.2.1.trans (hbk.2.2.2.2.2.1.trans (by rw [hdiff])),
    habort.2.2.2.2.2.2.1.trans (hbk.2.2.2.2.2.2.1.trans (by rw [hdiff])),
    habort.2.2.2.2.2.2.2.trans (hbk.2.2.2.2.2.2.2.1.trans (by rw [hdiff]))⟩

/-- C7 witness: the out-of-range hard-ACK at a concrete transmitting call is
aborted with no rotation. -/
theorem c7_tx_rotation_guard_witness :
    (rxrpc_receive_ack c7State c7BadAck 0).1.state = CallPhase.complete ∧
    (rxrpc_receive_ack c7State c7BadAck 0).1.acks_hard_ack = c7State.acks_hard_ack :=
  ⟨(c7_tx_rotation_guard c7State c7BadAck 0 (by decide) (by decide) (by decide)
      (by decide) (Or.inr (Or.inl (by decide))) (by decide)).1,
   (c7_tx_rotation_guard c7State c7BadAck 0 (by decide) (by decide) (by decide)
      (by decide) (Or.inr (Or.inl (by decide))) (by decide)).2.2.2.1⟩

/-- On the duplicate in-window branch (in-window seq with its SACK bit
already set), `dataOneMain` changes only `wtop` (advanced to `seq+1` when
that is after `wtop`) and `nr_jumbo_bad` (bumped for non-jumbo duplicates),
sends `ACK(DUPLICATE)` and frees the packet. -/
theorem dataOneMain_dup (s : CallState) (p : SubPkt)
    (hjg : (p.flags.jumbo && decide (s.nr_jumbo_bad > 3)) = false)
    (hnb : seq_before p.seq s.window = false)
    (hna : seq_after p.seq ((s.window + s.rx_winsize + (U32 - 1)) % U32) = false)
    (hne : ¬(p.seq = s.window))
    (hbit : s.ackr_sack_table.getD (p.seq % SACK_SIZE) false = true)
    (hhi : seq_after p.seq s.rx_highest_seq = false) :
    (dataOneMain s p).2 = [OutAction.sendAck ACK_DUPLICATE p.serial, OutAction.freeSkb] ∧
    (dataOneMain s p).1.wtop =
      (if seq_after ((p.seq + 1) % U32) s.wtop then (p.seq + 1) % U32 else s.wtop) ∧
    (dataOneMain s p).1.nr_jumbo_bad =
      (if p.flags.jumbo then s.nr_jumbo_bad else s.nr_jumbo_bad + 1) ∧
    (dataOneMain s p).1.window = s.window ∧
    (dataOneMain s p).1.ackr_sack_table = s.ackr_sack_table ∧
    (dataOneMain s p).1.rx_queue = s.rx_queue ∧
    (dataOneMain s p).1.rx_oos_queue = s.rx_oos_queue ∧
    (dataOneMain s p).1.ackr_nr_unacked = s.ackr_nr_unacked ∧
    (dataOneMain s p).1.rx_last = s.rx_last ∧
    (dataOneMain s p).1.rx_highest_seq = s.rx_highest_seq ∧
    (dataOneMain s p).1.state = s.state ∧
    (dataOneMain s p).1.tx_top = s.tx_top ∧
    (dataOneMain s p).1.tx_buffer = s.tx_buffer ∧
    (dataOneMain s p).1.acks_hard_ack = s.acks_hard_ack ∧
    (dataOneMain s p).1.acks_first_seq = s.acks_first_seq ∧
    (dataOneMain s p).1.acks_prev_seq = s.acks_prev_seq ∧
    (dataOneMain s p).1.cong_mode = s.cong_mode ∧
    (dataOneMain s p).1.cong_cwnd = s.cong_cwnd := by
  unfold dataOneMain dataOneClassify rxrpc_receive_dup_data rxrpc_receive_update_ack_window
  simp only [List.getD_eq_getElem?_getD] at hbit
  by_cases hj : p.flags.jumbo = true
  · have hnr : ¬(3 < s.nr_jumbo_bad) := by
      rw [hj] at hjg
      simp at hjg
      omega
    by_cases hwa : seq_after ((p.seq + 1) % U32) s.wtop = true <;>
      simp [hhi, hnb, hna, hne, hbit, hwa, hj, hnr]
  · have hj' : p.flags.jumbo = false := by revert hj; cases p.flags.jumbo <;> simp
    by_cases hwa : seq_after ((p.seq + 1) % U32) s.wtop = true <;>
      simp [hhi, hnb, hna, hne, hbit, hwa, hj']

/-- C10: a DATA packet taking the duplicate in-window branch (seq in
`[window, window+rx_winsize-1]`, SACK bit already set) changes only `wtop`
(republished as `seq+1` exactly when `after(seq+1, wtop)`) and
`nr_jumbo_bad`; the SACK table, `window`, `rx_queue` and `rx_oos_queue` are
unchanged and the packet is freed after `ACK(DUPLICATE)`. -/
theorem c10_dup_inwindow_frame (s : CallState) (p : SubPkt)
    (hjg : (p.flags.jumbo && decide (s.nr_jumbo_bad > 3)) = false)
    (hnb : seq_before p.seq s.window = false)
    (hna : seq_after p.seq ((s.window + s.rx_winsize + (U32 - 1)) % U32) = false)
    (hne : ¬(p.seq = s.window))
    (hbit : s.ackr_sack_table.getD (p.seq % SACK_SIZE) false = true)
    (hhi : seq_after p.seq s.rx_highest_seq = false)
    (hpl : p.flags.last = true → s.rx_last = true ∧ (p.seq + 1) % U32 = s.wtop)
    (hpn : p.flags.last = false → (s.rx_last && seq_after_eq p.seq s.wtop) = false) :
    (rxrpc_receive_data_one s p).2 =
      [OutAction.sendAck ACK_DUPLICATE p.serial, OutAction.freeSkb] ∧
    (rxrpc_receive_data_one s p).1.wtop =
      (if seq_after ((p.seq + 1) % U32) s.wtop then (p.seq + 1) % U32 else s.wtop) ∧
    (rxrpc_receive_data_one s p).1.nr_jumbo_bad =
      (if p.flags.jumbo then s.nr_jumbo_bad else s.nr_jumbo_bad + 1) ∧
    (rxrpc_receive_data_one s p).1.window = s.window ∧
    (rxrpc_receive_data_one s p).1.ackr_sack_table = s.ackr_sack_table ∧
    (rxrpc_receive_data_one s p).1.rx_queue = s.rx_queue ∧
    (rxrpc_receive_data_one s p).1.rx_oos_queue = s.rx_oos_queue ∧
    (rxrpc_receive_data_one s p).1.ackr_nr_unacked = s.ackr_nr_unacked ∧
    (rxrpc_receive_data_one s p).1.rx_last = s.rx_last ∧
    (rxrpc_receive_data_one s p).1.state = s.state := by
  unfold rxrpc_receive_data_one
  by_cases hl : p.flags.last = true
  · obtain ⟨hrl, hweq⟩ := hpl hl
    simp only [hl, if_true, ite_true]
    dsimp only
    rw [if_neg (show ¬((s.rx_last && decide ((p.seq + 1) % U32 ≠ s.wtop)) = true) by
      simp [hweq])]
    have hm := dataOneMain_dup { s with rx_last := true } p hjg hnb hna hne hbit hhi
    exact ⟨hm.1, hm.2.1, hm.2.2.1, hm.2.2.2.1, hm.2.2.2.2.1, hm.2.2.2.2.2.1,
      hm.2.2.2.2.2.2.1, hm.2.2.2.2.2.2.2.1, hm.2.2.2.2.2.2.2.2.1.trans hrl.symm,
      hm.2.2.2.2.2.2.2.2.2.2.1⟩
  · have hl' : p.flags.last = false := by revert hl; cases p.flags.last <;> simp
    simp only [hl', Bool.false_eq_true, if_false, ite_false, hpn hl']
    have hm := dataOneMain_dup s p hjg hnb hna hne hbit hhi
    exact ⟨hm.1, hm.2.1, hm.2.2.1, hm.2.2.2.1, hm.2.2.2.2.1, hm.2.2.2.2.2.1,
      hm.2.2.2.2.2.2.1, hm.2.2.2.2.2.2.2.1, hm.2.2.2.2.2.2.2.2.1,
      hm.2.2.2.2.2.2.2.2.2.2.1⟩

/-- C10 witness: the duplicate jumbo subpacket at the concrete gap-holding
state draws `ACK(DUPLICATE)` and leaves the queues unchanged. -/
theorem c10_dup_inwindow_frame_witness :
    (rxrpc_receive_data_one { oosHeldState with rx_highest_seq := 3 } jumboDupPkt).2 =
      [OutAction.sendAck ACK_DUPLICATE 21, OutAction.freeSkb] ∧
    (rxrpc_receive_data_one { oosHeldState with rx_highest_seq := 3 } jumboDupPkt).1.rx_oos_queue =
      oosHeldState.rx_oos_queue :=
  ⟨(c10_dup_inwindow_frame { oosHeldState with rx_highest_seq := 3 } jumboDupPkt
      (by decide) (by decide) (by decide) (by decide) (by decide) (by decide)
      (fun h => absurd h (by decide)) (fun _ => by decide)).1,
   (c10_dup_inwindow_frame { oosHeldState with rx_highest_seq := 3 } jumboDupPkt
      (by decide) (by decide) (by decide) (by decide) (by decide) (by decide)
      (fun h => absurd h (by decide)) (fun _ => by decide)).2.2.2.2.2.2.1⟩

theorem seq_before_false_of_dist_lt (a w : Nat) (h : u32sub a w < HALF32) :
    seq_before a w = false := by
  cases hb : seq_before a w
  · rfl
  · have := (seq_before_iff a w).mp hb
    omega

theorem seq_after_wlimit_of_dist (a w n : Nat) (hn1 : 1 ≤ n) (hn2 : n ≤ SACK_SIZE)
    (hd : u32sub a w < n) :
    seq_after a ((w + n + (U32 - 1)) % U32) = false := by
  unfold seq_after
  rw [decide_eq_false_iff_not]
  intro hpos
  rw [u32sub_mod_right] at hpos
  unfold SACK_SIZE at hn2
  unfold u32sub U32 at hd
  unfold s32 u32sub U32 HALF32 at hpos
  split at hpos <;> omega

theorem seq_after_succ_wtop_false (a w wt : Nat)
    (hD : u32sub wt w ≤ SACK_SIZE) (hd : u32sub a w < u32sub wt w) :
    seq_after ((a + 1) % U32) wt = false := by
  unfold seq_after
  rw [decide_eq_false_iff_not]
  intro hpos
  rw [u32sub_mod_left] at hpos
  unfold SACK_SIZE at hD
  unfold u32sub U32 at hd hD
  unfold s32 u32sub U32 HALF32 at hpos
  split at hpos <;> omega

/-- A DATA packet whose seq is before the window is answered with
`ACK(DUPLICATE)` and dropped, only `rx_highest_seq` possibly moving. -/
theorem dataOneMain_before (s : CallState) (p : SubPkt)
    (hjg : (p.flags.jumbo && decide (s.nr_jumbo_bad > 3)) = false)
    (hb : seq_before p.seq s.window = true) :
    dataOneMain s p =
      (if seq_after p.seq s.rx_highest_seq then { s with rx_highest_seq := p.seq } else s,
       [OutAction.sendAck ACK_DUPLICATE p.serial, OutAction.freeSkb]) := by
  unfold dataOneMain dataOneClassify
  by_cases hh : seq_after p.seq s.rx_highest_seq = true <;> simp [hh, hjg, hb]

/-- Replaying an already-processed seq (delivered or held out of order)
through `dataOneMain` yields `ACK(DUPLICATE)` and leaves the window pair,
the queues, the SACK table and all Tx-side fields unchanged. -/
theorem dataOneMain_replay (s : CallState) (p : SubPkt)
    (hinv : RxInv s)
    (hrep : seq_before p.seq s.window = true ∨ p.seq ∈ s.rx_oos_queue.map SubPkt.seq)
    (hjg : (p.flags.jumbo && decide (s.nr_jumbo_bad > 3)) = false)
    (hhi : seq_after p.seq s.rx_highest_seq = false) :
    (dataOneMain s p).2 = [OutAction.sendAck ACK_DUPLICATE p.serial, OutAction.freeSkb] ∧
    (dataOneMain s p).1.window = s.window ∧
    (dataOneMain s p).1.wtop = s.wtop ∧
    (dataOneMain s p).1.rx_queue = s.rx_queue ∧
    (dataOneMain s p).1.rx_oos_queue = s.rx_oos_queue ∧
    (dataOneMain s p).1.ackr_sack_table = s.ackr_sack_table ∧
    (dataOneMain s p).1.state = s.state ∧
    (dataOneMain s p).1.tx_top = s.tx_top ∧
    (dataOneMain s p).1.tx_buffer = s.tx_buffer ∧
    (dataOneMain s p).1.acks_hard_ack = s.acks_hard_ack ∧
    (dataOneMain s p).1.acks_first_seq = s.acks_first_seq ∧
    (dataOneMain s p).1.acks_prev_seq = s.acks_prev_seq ∧
    (dataOneMain s p).1.cong_mode = s.cong_mode ∧
    (dataOneMain s p).1.cong_cwnd = s.cong_cwnd := by
  rcases hrep with hb | hmem
  · rw [dataOneMain_before s p hjg hb]
    simp [hhi]
  · obtain ⟨q, hqmem, hqeq⟩ := List.mem_map.mp hmem
    obtain ⟨hqlt, hd1, hdD, hbitq⟩ := hinv.2.2.2.2.2.2.2 q hqmem
    rw [hqeq] at hqlt hd1 hdD hbitq
    have hD256 : u32sub s.wtop s.window ≤ SACK_SIZE :=
      le_trans hinv.2.2.2.2.2.1 hinv.2.2.2.1
    have hnb : seq_before p.seq s.window = false := by
      apply seq_before_false_of_dist_lt
      unfold SACK_SIZE at hD256
      unfold HALF32
      omega
    have hna : seq_after p.seq ((s.window + s.rx_winsize + (U32 - 1)) % U32) = false := by
      apply seq_after_wlimit_of_dist p.seq s.window s.rx_winsize hinv.2.2.1 hinv.2.2.2.1
      have := hinv.2.2.2.2.2.1
      omega
    have hne : ¬(p.seq = s.window) := by
      intro he
      rw [he, u32sub_self] at hd1
      omega
    have hwa : seq_after ((p.seq + 1) % U32) s.wtop = false :=
      seq_after_succ_wtop_false p.seq s.window s.wtop hD256 hdD
    have hm := dataOneMain_dup s p hjg hnb hna hne hbitq hhi
    exact ⟨hm.1, hm.2.2.2.1, hm.2.1.trans (by rw [hwa]; simp), hm.2.2.2.2.2.1,
      hm.2.2.2.2.2.2.1, hm.2.2.2.2.1, hm.2.2.2.2.2.2.2.2.2.2.1,
      hm.2.2.2.2.2.2.2.2.2.2.2.1, hm.2.2.2.2.2.2.2.2.2.2.2.2.1,
      hm.2.2.2.2.2.2.2.2.2.2.2.2.2.1, hm.2.2.2.2.2.2.2.2.2.2.2.2.2.2.1,
      hm.2.2.2.2.2.2.2.2.2.2.2.2.2.2.2.1, hm.2.2.2.2.2.2.2.2.2.2.2.2.2.2.2.2.1,
      hm.2.2.2.2.2.2.2.2.2.2.2.2.2.2.2.2.2⟩

/-- C9 (counterexample): a replay of the already-delivered seq 1 arriving
as a jumbo subpacket on a call with `nr_jumbo_bad = 4` is answered with
`ACK(NOSPACE)`, not `ACK(DUPLICATE)`. -/
theorem c9_replay_nospace :
    seq_before c9JumboReplay.seq c9NospaceState.window = true ∧
    (rxrpc_receive_data_one c9NospaceState c9JumboReplay).2 =
      [OutAction.sendAck ACK_NOSPACE 31, OutAction.freeSkb] ∧
    (rxrpc_receive_data_one c9NospaceState c9JumboReplay).2 ≠
      [OutAction.sendAck ACK_DUPLICATE 31, OutAction.freeSkb] := by
  refine ⟨by decide, by decide, by decide⟩

/-- C9 (amended): replaying an already-processed DATA packet (previously
delivered or buffered out of order) that does not trip the jumbo NOSPACE
guard yields `ACK(DUPLICATE)` and leaves the call state unchanged except
possibly `nr_jumbo_bad` and SACK accounting: `window`, `wtop`, `rx_queue`,
`rx_oos_queue`, the SACK table, the phase and all Tx-side fields are
unchanged. -/
theorem c9_replay_duplicate (s : CallState) (p : SubPkt)
    (hinv : RxInv s)
    (hrep : seq_before p.seq s.window = true ∨ p.seq ∈ s.rx_oos_queue.map SubPkt.seq)
    (hjg : (p.flags.jumbo && decide (s.nr_jumbo_bad > 3)) = false)
    (hhi : seq_after p.seq s.rx_highest_seq = false)
    (hpl : p.flags.last = true → s.rx_last = true ∧ (p.seq + 1) % U32 = s.wtop)
    (hpn : p.flags.last = false → (s.rx_last && seq_after_eq p.seq s.wtop) = false) :
    (rxrpc_receive_data_one s p).2 =
      [OutAction.sendAck ACK_DUPLICATE p.serial, OutAction.freeSkb] ∧
    (rxrpc_receive_data_one s p).1.window = s.window ∧
    (rxrpc_receive_data_one s p).1.wtop = s.wtop ∧
    (rxrpc_receive_data_one s p).1.rx_queue = s.rx_queue ∧
    (rxrpc_receive_data_one s p).1.rx_oos_queue = s.rx_oos_queue ∧
    (rxrpc_receive_data_one s p).1.ackr_sack_table = s.ackr_sack_table ∧
    (rxrpc_receive_data_one s p).1.state = s.state ∧
    (rxrpc_receive_data_one s p).1.tx_top = s.tx_top ∧
    (rxrpc_receive_data_one s p).1.tx_buffer = s.tx_buffer ∧
    (rxrpc_receive_data_one s p).1.acks_hard_ack = s.acks_hard_ack ∧
    (rxrpc_receive_data_one s p).1.acks_first_seq = s.acks_first_seq ∧
    (rxrpc_receive_data_one s p).1.acks_prev_seq = s.acks_prev_seq ∧
    (rxrpc_receive_data_one s p).1.cong_mode = s.cong_mode ∧
    (rxrpc_receive_data_one s p).1.cong_cwnd = s.cong_cwnd := by
  unfold rxrpc_receive_data_one
  by_cases hl : p.flags.last = true
  · obtain ⟨hrl, hweq⟩ := hpl hl
    simp only [hl, if_true, ite_true]
    dsimp only
    rw [if_neg (show ¬((s.rx_last && decide ((p.seq + 1) % U32 ≠ s.wtop)) = true) by
      simp [hweq])]
    exact dataOneMain_replay { s with rx_last := true } p hinv hrep hjg hhi
  · have hl' : p.flags.last = false := by revert hl; cases p.flags.last <;> simp
    simp only [hl', Bool.false_eq_true, if_false, ite_false, hpn hl']
    exact dataOneMain_replay s p hinv hrep hjg hhi

set_option maxRecDepth 4096 in
/-- C9 witness: the amended replay idempotence at the concrete
already-delivered seq 2. -/
theorem c9_replay_duplicate_witness :
    (rxrpc_receive_data_one c9DeliveredState (plainPkt 2 41)).2 =
      [OutAction.sendAck ACK_DUPLICATE 41, OutAction.freeSkb] ∧
    (rxrpc_receive_data_one c9DeliveredState (plainPkt 2 41)).1.window =
      c9DeliveredState.window :=
  ⟨(c9_replay_duplicate c9DeliveredState (plainPkt 2 41) (by decide) (Or.inl (by decide))
      (by decide) (by decide) (fun h => absurd h (by decide)) (fun _ => by decide)).1,
   (c9_replay_duplicate c9DeliveredState (plainPkt 2 41) (by decide) (Or.inl (by decide))
      (by decide) (by decide) (fun h => absurd h (by decide)) (fun _ => by decide)).2.1⟩


theorem u32sub_succ_left_any (a w : Nat) (h : u32sub a w + 1 < U32) :
    u32sub ((a + 1) % U32) w = u32sub a w + 1 := by
  rw [u32sub_mod_left]
  unfold u32sub U32 at *
  omega

theorem u32sub_add_right_le (a w k : Nat) (h : k ≤ u32sub a w) :
    u32sub a ((w + k) % U32) = u32sub a w - k := by
  rw [u32sub_mod_right]
  unfold u32sub U32 at *
  omega

theorem u32sub_add_left_lt (w k : Nat) (h : k < U32) :
    u32sub ((w + k) % U32) w = k := by
  rw [u32sub_mod_left]
  unfold u32sub U32 at *
  omega

/-- Whether advancing a within-window seq by one lands after `wtop` is
decided by the window-relative distances. -/
theorem after_succ_iff_dist (a w wt : Nat)
    (hd : u32sub a w < SACK_SIZE) (hD : u32sub wt w ≤ SACK_SIZE) :
    (seq_after ((a + 1) % U32) wt = true ↔ u32sub wt w < u32sub a w + 1) := by
  unfold seq_after
  rw [decide_eq_true_eq, u32sub_mod_left]
  unfold SACK_SIZE at hd hD
  unfold u32sub U32 at hd hD
  unfold s32 u32sub U32 HALF32
  constructor
  · intro h
    split at h <;> omega
  · intro h
    split <;> omega

/-- A seq that is not after the window limit `window + rx_winsize - 1` is
within `rx_winsize` of the window base. -/
theorem dist_lt_of_not_after_wlimit (a w n : Nat) (hn1 : 1 ≤ n) (hn2 : n ≤ SACK_SIZE)
    (hdh : u32sub a w < HALF32)
    (h : seq_after a ((w + n + (U32 - 1)) % U32) = false) :
    u32sub a w < n := by
  unfold seq_after at h
  rw [decide_eq_false_iff_not, u32sub_mod_right] at h
  by_contra hc
  push_neg at hc
  apply h
  unfold SACK_SIZE at hn2
  unfold HALF32 at hdh
  unfold u32sub U32 at hdh hc
  unfold s32 u32sub U32 HALF32
  split <;> omega

theorem seq_before_eq_of_dist_le (w wt : Nat) (h : u32sub wt w ≤ SACK_SIZE) :
    seq_before_eq w wt = true := by
  rw [seq_before_eq_iff]
  have hab := u32sub_antisymm wt w
  have hlt := u32sub_lt wt w
  unfold SACK_SIZE at h
  unfold U32 HALF32 at *
  split at hab <;> omega

theorem seq_before_true_of_opp_dist (a b : Nat)
    (h1 : 1 ≤ u32sub b a) (h2 : u32sub b a ≤ SACK_SIZE) :
    seq_before a b = true := by
  rw [seq_before_iff]
  have hab := u32sub_antisymm b a
  have hlt := u32sub_lt b a
  unfold SACK_SIZE at h2
  unfold U32 HALF32 at *
  split at hab <;> omega

theorem seq_before_false_of_opp_zero (a b : Nat) (h : u32sub b a = 0) :
    seq_before a b = false := by
  have hab := u32sub_antisymm b a
  rw [if_pos h] at hab
  exact seq_before_false_of_dist_lt a b (by rw [hab]; unfold HALF32; omega)

theorem mod_U32_mod_sack (x : Nat) : x % U32 % SACK_SIZE = x % SACK_SIZE := by
  unfold U32 SACK_SIZE
  omega

theorem sack_index_inj (a i j : Nat) (hi : i < SACK_SIZE) (hj : j < SACK_SIZE)
    (h : (a + i) % SACK_SIZE = (a + j) % SACK_SIZE) : i = j := by
  unfold SACK_SIZE at *
  omega

theorem getD_set_ne : ∀ (l : List Bool) (i j : Nat) (b : Bool), i ≠ j →
    (l.set i b).getD j false = l.getD j false
  | [], _, _, _, _ => rfl
  | _ :: _, 0, 0, _, h => absurd rfl h
  | _ :: _, 0, _ + 1, _, _ => rfl
  | _ :: _, _ + 1, 0, _, _ => rfl
  | _ :: xs, i + 1, j + 1, b, h => getD_set_ne xs i j b (fun hh => h (by rw [hh]))

theorem getD_set_self : ∀ (l : List Bool) (i : Nat) (b : Bool), i < l.length →
    (l.set i b).getD i false = b
  | [], _, _, h => absurd h (by simp)
  | _ :: _, 0, _, _ => rfl
  | _ :: xs, i + 1, b, h =>
    getD_set_self xs i b (by simp only [List.length_cons] at h; omega)

/-- For seqs at distinct in-window distances from `w`, `after` is exactly
distance comparison. -/
theorem seq_after_dist_gt_iff (w a b : Nat)
    (hda : u32sub a w < SACK_SIZE) (hdb : u32sub b w < SACK_SIZE)
    (hne : u32sub a w ≠ u32sub b w) :
    (seq_after a b = true ↔ u32sub b w < u32sub a w) := by
  rw [seq_after_iff]
  unfold SACK_SIZE at hda hdb
  unfold u32sub U32 at hda hdb hne
  unfold u32sub U32 HALF32
  omega

theorem oosInsert_mem (p : SubPkt) (l : List SubPkt) (r : SubPkt) :
    r ∈ oosInsert p l ↔ r = p ∨ r ∈ l := by
  induction l with
  | nil => simp [oosInsert]
  | cons q rest ih =>
    unfold oosInsert
    split
    · simp only [List.mem_cons]
      try tauto
    · simp only [List.mem_cons, ih]
      try tauto

/-- Inserting a packet at a fresh in-window distance preserves the
ascending-distance ordering of the out-of-order queue. -/
theorem oosInsert_pairwise (w : Nat) (p : SubPkt) (l : List SubPkt)
    (hp : u32sub p.seq w < SACK_SIZE)
    (hall : ∀ q ∈ l, u32sub q.seq w < SACK_SIZE ∧ u32sub q.seq w ≠ u32sub p.seq w)
    (hpw : l.Pairwise (fun q r => u32sub q.seq w < u32sub r.seq w)) :
    (oosInsert p l).Pairwise (fun q r => u32sub q.seq w < u32sub r.seq w) := by
  induction l with
  | nil => simp [oosInsert]
  | cons q rest ih =>
    rw [List.pairwise_cons] at hpw
    obtain ⟨hq, hqne⟩ := hall q (List.mem_cons_self q rest)
    unfold oosInsert
    by_cases hc : seq_after q.seq p.seq = true
    · rw [if_pos hc]
      have hlt : u32sub p.seq w < u32sub q.seq w :=
        (seq_after_dist_gt_iff w q.seq p.seq hq hp hqne).mp hc
      refine List.Pairwise.cons ?_ (List.Pairwise.cons hpw.1 hpw.2)
      intro r hr
      rcases List.mem_cons.mp hr with rfl | hrm
      · exact hlt
      · exact Nat.lt_trans hlt (hpw.1 r hrm)
    · rw [if_neg hc]
      have hgt : u32sub q.seq w < u32sub p.seq w := by
        have hiff := seq_after_dist_gt_iff w q.seq p.seq hq hp hqne
        have hnlt : ¬ u32sub p.seq w < u32sub q.seq w := fun hx => hc (hiff.mpr hx)
        omega
      refine List.Pairwise.cons ?_
        (ih (fun r hr => hall r (List.mem_cons_of_mem q hr)) hpw.2)
      intro r hr
      rcases (oosInsert_mem p rest r).mp hr with rfl | hrm
      · exact hgt
      · exact hpw.1 r hrm


/-- The SACK-bit reset loop only touches the slots `(r + i) % SACK_SIZE` for
`i` below the loop count `u32sub w r`; the table length and every other slot
are preserved. -/
theorem clearSackAux_preserve :
    ∀ (m : Nat), 1 ≤ m → m ≤ SACK_SIZE →
    ∀ (fuel r w : Nat) (sack : List Bool), m ≤ fuel → r < U32 → w < U32 →
    u32sub w r = m →
    (clearSackAux fuel r w sack).length = sack.length ∧
    (∀ j, (∀ i, i < m → (r + i) % SACK_SIZE ≠ j) →
      (clearSackAux fuel r w sack).getD j false = sack.getD j false) := by
  intro m
  induction m with
  | zero => intro h1; exact absurd h1 (by omega)
  | succ m ih =>
    intro h1 hm fuel r w sack hfuel hr hw hdist
    cases fuel with
    | zero => exact absurd hfuel (by omega)
    | succ f =>
      have hstep : clearSackAux (f + 1) r w sack =
          (if seq_before ((r + 1) % U32) w then
             clearSackAux f ((r + 1) % U32) w (sack.set (r % SACK_SIZE) false)
           else sack.set (r % SACK_SIZE) false) := rfl
      rw [hstep]
      have hr1lt : (r + 1) % U32 < U32 := Nat.mod_lt _ (by unfold U32; omega)
      have hd1 : u32sub w ((r + 1) % U32) = m := by
        rw [u32sub_succ_right w r hw hr (by omega), hdist]
        omega
      by_cases hm0 : m = 0
      · subst hm0
        rw [seq_before_false_of_opp_zero _ _ hd1]
        simp only [Bool.false_eq_true, if_false]
        constructor
        · exact List.length_set ..
        · intro j hj
          have hne : r % SACK_SIZE ≠ j := by
            have h0 := hj 0 (by omega)
            simpa using h0
          exact getD_set_ne sack (r % SACK_SIZE) j false hne
      · rw [seq_before_true_of_opp_dist _ _ (by omega) (by omega)]
        simp only [if_true]
        obtain ⟨hlen, hget⟩ := ih (by omega) (by omega) f ((r + 1) % U32) w
          (sack.set (r % SACK_SIZE) false) (by omega) hr1lt hw hd1
        constructor
        · rw [hlen]
          exact List.length_set ..
        · intro j hj
          rw [hget j ?_]
          · have hne : r % SACK_SIZE ≠ j := by
              have h0 := hj 0 (by omega)
              simpa using h0
            exact getD_set_ne sack (r % SACK_SIZE) j false hne
          · intro i hi
            have h2 := hj (i + 1) (by omega)
            have hmod : ((r + 1) % U32 + i) % SACK_SIZE = (r + (i + 1)) % SACK_SIZE := by
              unfold U32 SACK_SIZE
              omega
            rw [hmod]
            exact h2

/-- Characterization of the out-of-order drain: on a queue sorted by
window-relative distance with all distances below some in-window bound, the
drain splits the queue into a delivered prefix at consecutive distances
`0, 1, ...` and a kept suffix whose distances all exceed the prefix length,
and advances the window by the prefix length. -/
theorem drainOos_spec :
    ∀ (l : List SubPkt) (w B : Nat), w < U32 → B ≤ SACK_SIZE →
    (∀ q ∈ l, q.seq < U32 ∧ u32sub q.seq w < B) →
    ((l.map (fun q => u32sub q.seq w)).Pairwise (· < ·)) →
    (drainOos w l).2.1 ++ (drainOos w l).2.2 = l ∧
    ((drainOos w l).2.1.map (fun q => u32sub q.seq w)) =
      List.range (drainOos w l).2.1.length ∧
    (drainOos w l).1 = (w + (drainOos w l).2.1.length) % U32 ∧
    (∀ q ∈ (drainOos w l).2.2, (drainOos w l).2.1.length + 1 ≤ u32sub q.seq w) := by
  intro l
  induction l with
  | nil =>
    intro w B hw hB hall hpw
    refine ⟨rfl, rfl, ?_, ?_⟩
    · show w = (w + 0) % U32
      rw [Nat.add_zero, Nat.mod_eq_of_lt hw]
    · intro q hq
      exact absurd hq (by simp [drainOos])
  | cons q rest ih =>
    intro w B hw hB hall hpw
    obtain ⟨hqlt, hqB⟩ := hall q (List.mem_cons_self q rest)
    rw [List.map_cons, List.pairwise_cons] at hpw
    have hstep : drainOos w (q :: rest) =
        (if seq_after q.seq w then (w, [], q :: rest)
         else ((drainOos ((w + 1) % U32) rest).1,
               q :: (drainOos ((w + 1) % U32) rest).2.1,
               (drainOos ((w + 1) % U32) rest).2.2)) := rfl
    by_cases hc : seq_after q.seq w = true
    · have hdef : drainOos w (q :: rest) = (w, [], q :: rest) := by
        rw [hstep, if_pos hc]
      rw [hdef]
      refine ⟨rfl, rfl, ?_, ?_⟩
      · show w = (w + 0) % U32
        rw [Nat.add_zero, Nat.mod_eq_of_lt hw]
      · intro r hr
        have hq1 : 1 ≤ u32sub q.seq w := by
          have := (seq_after_iff q.seq w).mp hc
          omega
        rcases List.mem_cons.mp hr with rfl | hrm
        · show 0 + 1 ≤ u32sub r.seq w
          omega
        · have := hpw.1 (u32sub r.seq w)
            (List.mem_map_of_mem (fun x : SubPkt => u32sub x.seq w) hrm)
          show 0 + 1 ≤ u32sub r.seq w
          omega
    · have hdist0 : u32sub q.seq w = 0 := by
        have hna : ¬ (0 < u32sub q.seq w ∧ u32sub q.seq w < HALF32) :=
          fun hx => hc ((seq_after_iff q.seq w).mpr hx)
        have hsm : u32sub q.seq w < HALF32 := by
          unfold SACK_SIZE at hB
          unfold HALF32
          omega
        omega
      have hw1 : (w + 1) % U32 < U32 := Nat.mod_lt _ (by unfold U32; omega)
      have hrest1 : ∀ r ∈ rest, 1 ≤ u32sub r.seq w := by
        intro r hr
        have := hpw.1 (u32sub r.seq w)
          (List.mem_map_of_mem (fun x : SubPkt => u32sub x.seq w) hr)
        omega
      have hshift : ∀ r ∈ rest, u32sub r.seq ((w + 1) % U32) = u32sub r.seq w - 1 := by
        intro r hr
        exact u32sub_succ_right r.seq w (hall r (List.mem_cons_of_mem q hr)).1 hw
          (hrest1 r hr)
      have hall1 : ∀ r ∈ rest, r.seq < U32 ∧ u32sub r.seq ((w + 1) % U32) < B := by
        intro r hr
        obtain ⟨hx1, hx2⟩ := hall r (List.mem_cons_of_mem q hr)
        refine ⟨hx1, ?_⟩
        rw [hshift r hr]
        omega
      have hpw1 : (rest.map (fun r => u32sub r.seq ((w + 1) % U32))).Pairwise (· < ·) := by
        rw [List.pairwise_map]
        rw [List.pairwise_map] at hpw
        refine hpw.2.imp_of_mem ?_
        intro a b ha hb hab
        rw [hshift a ha, hshift b hb]
        have := hrest1 a ha
        have := hrest1 b hb
        omega
      obtain ⟨ih1, ih2, ih3, ih4⟩ := ih ((w + 1) % U32) B hw1 hB hall1 hpw1
      have hdef : drainOos w (q :: rest) =
          ((drainOos ((w + 1) % U32) rest).1,
           q :: (drainOos ((w + 1) % U32) rest).2.1,
           (drainOos ((w + 1) % U32) rest).2.2) := by
        rw [hstep, if_neg hc]
      rw [hdef]
      have hds_sub : ∀ r ∈ (drainOos ((w + 1) % U32) rest).2.1, r ∈ rest := by
        intro r hr
        have hx : r ∈ (drainOos ((w + 1) % U32) rest).2.1 ++
            (drainOos ((w + 1) % U32) rest).2.2 := List.mem_append_left _ hr
        rw [ih1] at hx
        exact hx
      refine ⟨?_, ?_, ?_, ?_⟩
      · show q :: ((drainOos ((w + 1) % U32) rest).2.1 ++
            (drainOos ((w + 1) % U32) rest).2.2) = q :: rest
        rw [ih1]
      · show u32sub q.seq w :: (drainOos ((w + 1) % U32) rest).2.1.map
            (fun r => u32sub r.seq w) =
          List.range (q :: (drainOos ((w + 1) % U32) rest).2.1).length
        rw [hdist0]
        have hmapeq : (drainOos ((w + 1) % U32) rest).2.1.map
            (fun r => u32sub r.seq w) =
            ((drainOos ((w + 1) % U32) rest).2.1.map
              (fun r => u32sub r.seq ((w + 1) % U32))).map Nat.succ := by
          rw [List.map_map]
          apply List.map_congr_left
          intro r hr
          have hs := hshift r (hds_sub r hr)
          have h1 := hrest1 r (hds_sub r hr)
          show u32sub r.seq w = Nat.succ (u32sub r.seq ((w + 1) % U32))
          omega
        rw [hmapeq, ih2, List.length_cons, List.range_succ_eq_map]
      · show (drainOos ((w + 1) % U32) rest).1 =
          (w + (q :: (drainOos ((w + 1) % U32) rest).2.1).length) % U32
        rw [ih3, List.length_cons, Nat.mod_add_mod]
        have harr : w + 1 + (drainOos ((w + 1) % U32) rest).2.1.length =
            w + ((drainOos ((w + 1) % U32) rest).2.1.length + 1) := by omega
        rw [harr]
      · intro r hr
        have h4 := ih4 r hr
        have hrrest : r ∈ rest := by
          have hx : r ∈ (drainOos ((w + 1) % U32) rest).2.1 ++
              (drainOos ((w + 1) % U32) rest).2.2 := List.mem_append_right _ hr
          rw [ih1] at hx
          exact hx
        have hs := hshift r hrrest
        have h1 := hrest1 r hrrest
        show (q :: (drainOos ((w + 1) % U32) rest).2.1).length + 1 ≤ u32sub r.seq w
        rw [List.length_cons]
        omega


/-- The receive-window invariant only reads the five Rx-window fields, so it
transfers across any state change that preserves them. -/
theorem rxInv_of_fields (t s : CallState)
    (h1 : t.window = s.window) (h2 : t.wtop = s.wtop)
    (h3 : t.rx_winsize = s.rx_winsize)
    (h4 : t.ackr_sack_table = s.ackr_sack_table)
    (h5 : t.rx_oos_queue = s.rx_oos_queue)
    (hs : RxInv s) : RxInv t := by
  unfold RxInv at hs ⊢
  rw [h1, h2, h3, h4, h5]
  exact hs

theorem protoAbort_rxInv (s : CallState) (h : RxInv s) :
    RxInv (rxrpc_proto_abort s).1 := by
  unfold rxrpc_proto_abort rxrpc_abort_call
  by_cases hc : s.state = CallPhase.complete
  · rw [if_pos hc]
    exact h
  · rw [if_neg hc]
    exact rxInv_of_fields _ s rfl rfl rfl rfl rfl h

theorem dataOneClassify_guard_id (s : CallState) (p : SubPkt)
    (h1 : (p.flags.jumbo && decide (s.nr_jumbo_bad > 3)) = true) :
    (dataOneClassify s p).1 = s := by
  unfold dataOneClassify
  rw [if_pos h1]

theorem dataOneClassify_before_id (s : CallState) (p : SubPkt)
    (h1 : (p.flags.jumbo && decide (s.nr_jumbo_bad > 3)) = false)
    (h2 : seq_before p.seq s.window = true) :
    (dataOneClassify s p).1 = s := by
  unfold dataOneClassify
  simp only [h1, Bool.false_eq_true, if_false, h2, if_true]

theorem dataOneClassify_exceeds_id (s : CallState) (p : SubPkt)
    (h1 : (p.flags.jumbo && decide (s.nr_jumbo_bad > 3)) = false)
    (h2 : seq_before p.seq s.window = false)
    (h3 : seq_after p.seq ((s.window + s.rx_winsize + (U32 - 1)) % U32) = true) :
    (dataOneClassify s p).1 = s := by
  unfold dataOneClassify
  simp only [h1, h2, Bool.false_eq_true, if_false, h3, if_true]

/-- The Rx-window fields produced by the in-order admission branch. -/
theorem dataOneClassify_inorder_fields (s : CallState) (p : SubPkt)
    (hw : p.seq = s.window)
    (h1 : 1 ≤ s.rx_winsize) (h2 : s.rx_winsize ≤ HALF32)
    (hjg : (p.flags.jumbo && decide (s.nr_jumbo_bad > 3)) = false) :
    (dataOneClassify s p).1.window = (drainOos ((s.window + 1) % U32) s.rx_oos_queue).1 ∧
    (dataOneClassify s p).1.wtop =
      (if seq_after ((s.window + 1) % U32) s.wtop then (s.window + 1) % U32 else s.wtop) ∧
    (dataOneClassify s p).1.rx_winsize = s.rx_winsize ∧
    (dataOneClassify s p).1.rx_oos_queue =
      (drainOos ((s.window + 1) % U32) s.rx_oos_queue).2.2 ∧
    (dataOneClassify s p).1.ackr_sack_table =
      (if (drainOos ((s.window + 1) % U32) s.rx_oos_queue).2.1.isEmpty
       then s.ackr_sack_table
       else clearSack ((drainOos ((s.window + 1) % U32) s.rx_oos_queue).2.1.headD p).seq
              (drainOos ((s.window + 1) % U32) s.rx_oos_queue).1 s.ackr_sack_table) := by
  unfold dataOneClassify rxrpc_receive_queue_data rxrpc_receive_update_ack_window
  rw [hw]
  by_cases hr : p.flags.request_ack <;>
  by_cases he : s.rx_oos_queue.isEmpty = true <;>
  by_cases hadv : seq_after ((s.window + 1) % U32) s.wtop = true <;>
    simp only [hr, he, hadv, hjg, seq_before_self,
      seq_after_wlimit s.window s.rx_winsize h1 h2,
      if_true, if_false, Bool.false_eq_true, Bool.true_eq_false, Bool.not_true,
      Bool.not_false, Option.isNone_some, Option.isNone_none, ite_true, ite_false] <;>
    (cases hdd : (drainOos ((s.window + 1) % U32) s.rx_oos_queue).2.1 <;>
      simp only [hdd, List.isEmpty_cons, List.isEmpty_nil, List.headD_cons,
        if_true, if_false, Bool.false_eq_true, ite_true, ite_false] <;>
      refine ⟨?_, ?_, ?_, ?_, ?_⟩ <;> trivial)

/-- The Rx-window fields produced by the duplicate in-window branch. -/
theorem dataOneClassify_dup_fields (s : CallState) (p : SubPkt)
    (hjg : (p.flags.jumbo && decide (s.nr_jumbo_bad > 3)) = false)
    (hb : seq_before p.seq s.window = false)
    (ha : seq_after p.seq ((s.window + s.rx_winsize + (U32 - 1)) % U32) = false)
    (hne : ¬ p.seq = s.window)
    (hbit : s.ackr_sack_table.getD (p.seq % SACK_SIZE) false = true) :
    (dataOneClassify s p).1.window = s.window ∧
    (dataOneClassify s p).1.wtop =
      (if seq_after ((p.seq + 1) % U32) s.wtop then (p.seq + 1) % U32 else s.wtop) ∧
    (dataOneClassify s p).1.rx_winsize = s.rx_winsize ∧
    (dataOneClassify s p).1.rx_oos_queue = s.rx_oos_queue ∧
    (dataOneClassify s p).1.ackr_sack_table = s.ackr_sack_table := by
  unfold dataOneClassify rxrpc_receive_dup_data rxrpc_receive_update_ack_window
  simp only [List.getD_eq_getElem?_getD] at hbit
  by_cases hj : p.flags.jumbo = true
  · have hnr : ¬(3 < s.nr_jumbo_bad) := by
      rw [hj] at hjg
      simp at hjg
      omega
    by_cases hwa : seq_after ((p.seq + 1) % U32) s.wtop = true <;>
      simp [hb, ha, hne, hbit, hwa, hj, hnr]
  · have hj2 : p.flags.jumbo = false := by revert hj; cases p.flags.jumbo <;> simp
    by_cases hwa : seq_after ((p.seq + 1) % U32) s.wtop = true <;>
      simp [hb, ha, hne, hbit, hwa, hj2, hjg]

/-- The Rx-window fields produced by the out-of-order keep branch. -/
theorem dataOneClassify_oos_fields (s : CallState) (p : SubPkt)
    (hjg : (p.flags.jumbo && decide (s.nr_jumbo_bad > 3)) = false)
    (hb : seq_before p.seq s.window = false)
    (ha : seq_after p.seq ((s.window + s.rx_winsize + (U32 - 1)) % U32) = false)
    (hne : ¬ p.seq = s.window)
    (hbit : s.ackr_sack_table.getD (p.seq % SACK_SIZE) false = false) :
    (dataOneClassify s p).1.window = s.window ∧
    (dataOneClassify s p).1.wtop =
      (if seq_after ((p.seq + 1) % U32) s.wtop then (p.seq + 1) % U32 else s.wtop) ∧
    (dataOneClassify s p).1.rx_winsize = s.rx_winsize ∧
    (dataOneClassify s p).1.rx_oos_queue = oosInsert p s.rx_oos_queue ∧
    (dataOneClassify s p).1.ackr_sack_table =
      s.ackr_sack_table.set (p.seq % SACK_SIZE) true := by
  unfold dataOneClassify rxrpc_receive_update_ack_window
  simp only [List.getD_eq_getElem?_getD] at hbit
  by_cases hwa : seq_after ((p.seq + 1) % U32) s.wtop = true <;>
    simp [hb, ha, hne, hbit, hwa, hjg]


/-- Every branch of the DATA window classification preserves the
receive-window invariant. -/
theorem dataOneClassify_preserves (s : CallState) (p : SubPkt)
    (hinv : RxInv s) (hp : p.seq < U32) :
    RxInv (dataOneClassify s p).1 := by
  obtain ⟨hw, hwt, hws1, hws2, hlen, hspan, hsort, hmem⟩ := hinv
  have hinv2 : RxInv s := ⟨hw, hwt, hws1, hws2, hlen, hspan, hsort, hmem⟩
  have hsackpos : 0 < SACK_SIZE := by unfold SACK_SIZE; omega
  have hU32pos : 0 < U32 := by unfold U32; omega
  by_cases h1 : (p.flags.jumbo && decide (s.nr_jumbo_bad > 3)) = true
  · rw [dataOneClassify_guard_id s p h1]
    exact hinv2
  have h1f : (p.flags.jumbo && decide (s.nr_jumbo_bad > 3)) = false := by
    revert h1
    cases p.flags.jumbo && decide (s.nr_jumbo_bad > 3) <;> simp
  by_cases h2 : seq_before p.seq s.window = true
  · rw [dataOneClassify_before_id s p h1f h2]
    exact hinv2
  have h2f : seq_before p.seq s.window = false := by
    revert h2
    cases seq_before p.seq s.window <;> simp
  by_cases h3 : seq_after p.seq ((s.window + s.rx_winsize + (U32 - 1)) % U32) = true
  · rw [dataOneClassify_exceeds_id s p h1f h2f h3]
    exact hinv2
  have h3f : seq_after p.seq ((s.window + s.rx_winsize + (U32 - 1)) % U32) = false := by
    revert h3
    cases seq_after p.seq ((s.window + s.rx_winsize + (U32 - 1)) % U32) <;> simp
  by_cases h4 : p.seq = s.window
  · -- in-order admission
    have hwsH : s.rx_winsize ≤ HALF32 := by
      unfold SACK_SIZE at hws2
      unfold HALF32
      omega
    obtain ⟨Fw, Fwt, Fws, Foos, Fsack⟩ :=
      dataOneClassify_inorder_fields s p h4 hws1 hwsH h1f
    have hw1lt : (s.window + 1) % U32 < U32 := Nat.mod_lt _ hU32pos
    by_cases hadv : seq_after ((s.window + 1) % U32) s.wtop = true
    · -- the window was empty: wtop advances with the window
      have hD0 : u32sub s.wtop s.window = 0 := by
        have hiff := after_succ_iff_dist s.window s.window s.wtop
          (by rw [u32sub_self]; exact hsackpos) (Nat.le_trans hspan hws2)
        have hx := hiff.mp hadv
        rw [u32sub_self] at hx
        omega
      have hoosnil : s.rx_oos_queue = [] := by
        cases hqq : s.rx_oos_queue with
        | nil => rfl
        | cons q0 r0 =>
          obtain ⟨_, hm1, hm2, _⟩ := hmem q0 (by rw [hqq]; exact List.mem_cons_self q0 r0)
          omega
      rw [hoosnil] at Fw Foos Fsack
      rw [show drainOos ((s.window + 1) % U32) ([] : List SubPkt) =
          ((s.window + 1) % U32, [], []) from rfl] at Fw Foos Fsack
      simp only [List.isEmpty_nil, if_true, ite_true] at Fsack
      rw [if_pos hadv] at Fwt
      unfold RxInv
      refine ⟨?_, ?_, ?_, ?_, ?_, ?_, ?_, ?_⟩
      · rw [Fw]; exact hw1lt
      · rw [Fwt]; exact hw1lt
      · rw [Fws]; exact hws1
      · rw [Fws]; exact hws2
      · rw [Fsack]; exact hlen
      · rw [Fwt, Fw, Fws, u32sub_self]; omega
      · rw [Foos]; simp
      · rw [Foos]; intro q hq; exact absurd hq (by simp)
    · -- wtop stays: drain into a non-trivially occupied window
      rw [if_neg hadv] at Fwt
      have hD1p : 1 ≤ u32sub s.wtop s.window := by
        have hiff := after_succ_iff_dist s.window s.window s.wtop
          (by rw [u32sub_self]; exact hsackpos) (Nat.le_trans hspan hws2)
        by_contra hc
        push_neg at hc
        exact hadv (hiff.mpr (by rw [u32sub_self]; omega))
      have hDtop1 : u32sub s.wtop ((s.window + 1) % U32) = u32sub s.wtop s.window - 1 :=
        u32sub_succ_right s.wtop s.window hwt hw hD1p
      have hallq : ∀ q ∈ s.rx_oos_queue, q.seq < U32 ∧
          u32sub q.seq ((s.window + 1) % U32) < u32sub s.wtop s.window - 1 := by
        intro q hq
        obtain ⟨ha1, ha2, ha3, _⟩ := hmem q hq
        refine ⟨ha1, ?_⟩
        rw [u32sub_succ_right q.seq s.window ha1 hw ha2]
        omega
      have hpw1 : (s.rx_oos_queue.map
          (fun q => u32sub q.seq ((s.window + 1) % U32))).Pairwise (· < ·) := by
        rw [List.pairwise_map]
        rw [List.pairwise_map] at hsort
        refine hsort.imp_of_mem ?_
        intro a b ha hb hab
        obtain ⟨hx1, hx2, _, _⟩ := hmem a ha
        obtain ⟨hy1, hy2, _, _⟩ := hmem b hb
        rw [u32sub_succ_right a.seq s.window hx1 hw hx2,
            u32sub_succ_right b.seq s.window hy1 hw hy2]
        omega
      have hBle : u32sub s.wtop s.window - 1 ≤ SACK_SIZE := by
        unfold SACK_SIZE at hws2 ⊢
        omega
      obtain ⟨S1, S2, S3, S4⟩ := drainOos_spec s.rx_oos_queue ((s.window + 1) % U32)
        (u32sub s.wtop s.window - 1) hw1lt hBle hallq hpw1
      have hds_sub : ∀ r ∈ (drainOos ((s.window + 1) % U32) s.rx_oos_queue).2.1,
          r ∈ s.rx_oos_queue := by
        intro r hr
        have hx : r ∈ (drainOos ((s.window + 1) % U32) s.rx_oos_queue).2.1 ++
            (drainOos ((s.window + 1) % U32) s.rx_oos_queue).2.2 :=
          List.mem_append_left _ hr
        rw [S1] at hx
        exact hx
      have hrs_sub : ∀ r ∈ (drainOos ((s.window + 1) % U32) s.rx_oos_queue).2.2,
          r ∈ s.rx_oos_queue := by
        intro r hr
        have hx : r ∈ (drainOos ((s.window + 1) % U32) s.rx_oos_queue).2.1 ++
            (drainOos ((s.window + 1) % U32) s.rx_oos_queue).2.2 :=
          List.mem_append_right _ hr
        rw [S1] at hx
        exact hx
      have hkB : (drainOos ((s.window + 1) % U32) s.rx_oos_queue).2.1.length ≤
          u32sub s.wtop s.window - 1 := by
        rcases Nat.eq_zero_or_pos
            (drainOos ((s.window + 1) % U32) s.rx_oos_queue).2.1.length with h0 | hposk
        · omega
        · have hmr : (drainOos ((s.window + 1) % U32) s.rx_oos_queue).2.1.length - 1 ∈
              List.range (drainOos ((s.window + 1) % U32) s.rx_oos_queue).2.1.length :=
            List.mem_range.mpr (by omega)
          rw [← S2, List.mem_map] at hmr
          obtain ⟨r, hr, hre⟩ := hmr
          have := (hallq r (hds_sub r hr)).2
          omega
      have hDF : u32sub s.wtop (drainOos ((s.window + 1) % U32) s.rx_oos_queue).1 =
          u32sub s.wtop s.window - 1 -
            (drainOos ((s.window + 1) % U32) s.rx_oos_queue).2.1.length := by
        rw [S3, u32sub_add_right_le _ _ _ (by rw [hDtop1]; exact hkB), hDtop1]
      have hrestF : ∀ r ∈ (drainOos ((s.window + 1) % U32) s.rx_oos_queue).2.2,
          u32sub r.seq (drainOos ((s.window + 1) % U32) s.rx_oos_queue).1 =
            u32sub r.seq ((s.window + 1) % U32) -
              (drainOos ((s.window + 1) % U32) s.rx_oos_queue).2.1.length := by
        intro r hr
        rw [S3]
        exact u32sub_add_right_le r.seq _ _ (by have := S4 r hr; omega)
      have hwFlt : (drainOos ((s.window + 1) % U32) s.rx_oos_queue).1 < U32 := by
        rw [S3]
        exact Nat.mod_lt _ hU32pos
      -- the SACK table after the (possible) reset loop
      have hsack2 : (dataOneClassify s p).1.ackr_sack_table.length = SACK_SIZE ∧
          (∀ r ∈ (drainOos ((s.window + 1) % U32) s.rx_oos_queue).2.2,
            (dataOneClassify s p).1.ackr_sack_table.getD (r.seq % SACK_SIZE) false = true) := by
        cases hdd : (drainOos ((s.window + 1) % U32) s.rx_oos_queue).2.1 with
        | nil =>
          rw [hdd] at Fsack
          simp only [List.isEmpty_nil, if_true, ite_true] at Fsack
          rw [Fsack]
          refine ⟨hlen, ?_⟩
          intro r hr
          obtain ⟨_, _, _, m4⟩ := hmem r (hrs_sub r hr)
          exact m4
        | cons q0 ds =>
          rw [hdd] at Fsack
          simp only [List.isEmpty_cons, Bool.false_eq_true, if_false, ite_false,
            List.headD_cons] at Fsack
          have hk1 : 1 ≤ (drainOos ((s.window + 1) % U32) s.rx_oos_queue).2.1.length := by
            rw [hdd]
            simp
          have hq0dist : u32sub q0.seq ((s.window + 1) % U32) = 0 := by
            have hx := S2
            rw [hdd] at hx
            rw [List.map_cons, List.length_cons, List.range_succ_eq_map] at hx
            exact (List.cons.injEq _ _ _ _).mp hx |>.1
          have hq0lt : q0.seq < U32 :=
            (hallq q0 (hds_sub q0 (by rw [hdd]; exact List.mem_cons_self q0 ds))).1
          have hq0eq : q0.seq = (s.window + 1) % U32 :=
            (u32sub_eq_zero_iff q0.seq ((s.window + 1) % U32) hq0lt hw1lt).mp hq0dist
          have hkS : (drainOos ((s.window + 1) % U32) s.rx_oos_queue).2.1.length ≤
              SACK_SIZE := by
            have h3 := hws2
            unfold SACK_SIZE at h3 ⊢
            omega
          have hkU : (drainOos ((s.window + 1) % U32) s.rx_oos_queue).2.1.length < U32 := by
            have h3 := hws2
            have hU : (4294967295 : Nat) < U32 := by unfold U32; omega
            unfold SACK_SIZE at h3
            omega
          have hmclear : u32sub (drainOos ((s.window + 1) % U32) s.rx_oos_queue).1 q0.seq =
              (drainOos ((s.window + 1) % U32) s.rx_oos_queue).2.1.length := by
            rw [S3, hq0eq]
            exact u32sub_add_left_lt _ _ hkU
          obtain ⟨CL, CG⟩ := clearSackAux_preserve
            (drainOos ((s.window + 1) % U32) s.rx_oos_queue).2.1.length hk1
            hkS U32 q0.seq
            (drainOos ((s.window + 1) % U32) s.rx_oos_queue).1 s.ackr_sack_table
            (Nat.le_of_lt hkU)
            (by rw [hq0eq]; exact hw1lt) hwFlt hmclear
          rw [Fsack]
          rw [show clearSack q0.seq (drainOos ((s.window + 1) % U32) s.rx_oos_queue).1
              s.ackr_sack_table = clearSackAux U32 q0.seq
              (drainOos ((s.window + 1) % U32) s.rx_oos_queue).1 s.ackr_sack_table from rfl]
          refine ⟨by rw [CL]; exact hlen, ?_⟩
          intro r hr
          obtain ⟨m1, m2, m3, m4⟩ := hmem r (hrs_sub r hr)
          rw [CG (r.seq % SACK_SIZE) ?_]
          · exact m4
          · intro i hik hcon
            have hd1r : 1 ≤ u32sub r.seq s.window := m2
            have hrw1 : u32sub r.seq ((s.window + 1) % U32) = u32sub r.seq s.window - 1 :=
              u32sub_succ_right r.seq s.window m1 hw hd1r
            have hrdist : r.seq % SACK_SIZE =
                ((s.window + 1) % U32 + u32sub r.seq ((s.window + 1) % U32)) % SACK_SIZE := by
              conv_lhs => rw [u32sub_as_dist r.seq ((s.window + 1) % U32) m1 hw1lt]
              rw [mod_U32_mod_sack]
            rw [hq0eq, hrdist] at hcon
            have hS4r := S4 r hr
            have hieq : i = u32sub r.seq ((s.window + 1) % U32) :=
              sack_index_inj ((s.window + 1) % U32) i
                (u32sub r.seq ((s.window + 1) % U32))
                (by unfold SACK_SIZE at *; omega)
                (by have := (hallq r (hrs_sub r hr)).2; unfold SACK_SIZE at *; omega)
                hcon
            omega
      unfold RxInv
      refine ⟨?_, ?_, ?_, ?_, ?_, ?_, ?_, ?_⟩
      · rw [Fw]; exact hwFlt
      · rw [Fwt]; exact hwt
      · rw [Fws]; exact hws1
      · rw [Fws]; exact hws2
      · exact hsack2.1
      · rw [Fwt, Fw, Fws, hDF]; omega
      · rw [Foos, Fw]
        rw [List.pairwise_map]
        have hpwrest : (drainOos ((s.window + 1) % U32) s.rx_oos_queue).2.2.Pairwise
            (fun a b => u32sub a.seq ((s.window + 1) % U32) <
              u32sub b.seq ((s.window + 1) % U32)) := by
          rw [List.pairwise_map] at hpw1
          rw [← S1] at hpw1
          exact (List.pairwise_append.mp hpw1).2.1
        refine hpwrest.imp_of_mem ?_
        intro a b ha hb hab
        rw [hrestF a ha, hrestF b hb]
        have := S4 a ha
        have := S4 b hb
        omega
      · rw [Foos]
        intro q hq
        obtain ⟨m1, m2, m3, m4⟩ := hmem q (hrs_sub q hq)
        have hq1 : u32sub q.seq ((s.window + 1) % U32) = u32sub q.seq s.window - 1 :=
          u32sub_succ_right q.seq s.window m1 hw m2
        have hqF := hrestF q hq
        have hS4q := S4 q hq
        have hqB := (hallq q (hrs_sub q hq)).2
        refine ⟨m1, ?_, ?_, ?_⟩
        · rw [Fw, hqF]; omega
        · rw [Fw, Fwt, hqF, hDF]; omega
        · exact hsack2.2 q hq
  · -- within-window, not the window base: duplicate or out-of-order keep
    have hdlow : u32sub p.seq s.window < HALF32 := by
      by_contra hc
      push_neg at hc
      have hx := (seq_before_iff p.seq s.window).mpr hc
      rw [h2f] at hx
      exact Bool.false_ne_true hx
    have hdlt : u32sub p.seq s.window < s.rx_winsize :=
      dist_lt_of_not_after_wlimit p.seq s.window s.rx_winsize hws1 hws2 hdlow h3f
    have hd1 : 1 ≤ u32sub p.seq s.window := by
      rcases Nat.eq_zero_or_pos (u32sub p.seq s.window) with h0 | hpos
      · exact absurd ((u32sub_eq_zero_iff p.seq s.window hp hw).mp h0) h4
      · exact hpos
    have hdsack : u32sub p.seq s.window < SACK_SIZE := Nat.lt_of_lt_of_le hdlt hws2
    have hsucclt : u32sub ((p.seq + 1) % U32) s.window = u32sub p.seq s.window + 1 :=
      u32sub_succ_left_any p.seq s.window
        (by unfold HALF32 at hdlow; unfold U32; omega)
    have hiffadv := after_succ_iff_dist p.seq s.window s.wtop hdsack
      (Nat.le_trans hspan hws2)
    by_cases hbit : s.ackr_sack_table.getD (p.seq % SACK_SIZE) false = true
    · -- duplicate: SACK bit already set
      obtain ⟨Fw, Fwt, Fws, Foos, Fsack⟩ :=
        dataOneClassify_dup_fields s p h1f h2f h3f h4 hbit
      by_cases hadv : seq_after ((p.seq + 1) % U32) s.wtop = true
      · rw [if_pos hadv] at Fwt
        have hDlt : u32sub s.wtop s.window < u32sub p.seq s.window + 1 := hiffadv.mp hadv
        unfold RxInv
        refine ⟨?_, ?_, ?_, ?_, ?_, ?_, ?_, ?_⟩
        · rw [Fw]; exact hw
        · rw [Fwt]; exact Nat.mod_lt _ hU32pos
        · rw [Fws]; exact hws1
        · rw [Fws]; exact hws2
        · rw [Fsack]; exact hlen
        · rw [Fwt, Fw, Fws, hsucclt]; omega
        · rw [Foos, Fw]; exact hsort
        · rw [Foos]
          intro q hq
          obtain ⟨m1, m2, m3, m4⟩ := hmem q hq
          refine ⟨m1, ?_, ?_, ?_⟩
          · rw [Fw]; exact m2
          · rw [Fw, Fwt, hsucclt]; omega
          · rw [Fsack]; exact m4
      · rw [if_neg hadv] at Fwt
        unfold RxInv
        refine ⟨?_, ?_, ?_, ?_, ?_, ?_, ?_, ?_⟩
        · rw [Fw]; exact hw
        · rw [Fwt]; exact hwt
        · rw [Fws]; exact hws1
        · rw [Fws]; exact hws2
        · rw [Fsack]; exact hlen
        · rw [Fwt, Fw, Fws]; exact hspan
        · rw [Foos, Fw]; exact hsort
        · rw [Foos]
          intro q hq
          obtain ⟨m1, m2, m3, m4⟩ := hmem q hq
          refine ⟨m1, ?_, ?_, ?_⟩
          · rw [Fw]; exact m2
          · rw [Fw, Fwt]; exact m3
          · rw [Fsack]; exact m4
    · -- keep: new out-of-order packet
      have hbitf : s.ackr_sack_table.getD (p.seq % SACK_SIZE) false = false := by
        revert hbit
        cases s.ackr_sack_table.getD (p.seq % SACK_SIZE) false <;> simp
      obtain ⟨Fw, Fwt, Fws, Foos, Fsack⟩ :=
        dataOneClassify_oos_fields s p h1f h2f h3f h4 hbitf
      have hdist_ne : ∀ q ∈ s.rx_oos_queue,
          u32sub q.seq s.window ≠ u32sub p.seq s.window := by
        intro q hq heq
        obtain ⟨m1, _, _, m4⟩ := hmem q hq
        have hqe : q.seq = p.seq := by
          rw [u32sub_as_dist q.seq s.window m1 hw,
              u32sub_as_dist p.seq s.window hp hw, heq]
        rw [hqe] at m4
        exact Bool.false_ne_true (hbitf.symm.trans m4)
      have hplen : p.seq % SACK_SIZE < s.ackr_sack_table.length := by
        rw [hlen]
        exact Nat.mod_lt _ hsackpos
      have hsorted2 : ((oosInsert p s.rx_oos_queue).map
          (fun q => u32sub q.seq s.window)).Pairwise (· < ·) := by
        rw [List.pairwise_map]
        refine oosInsert_pairwise s.window p s.rx_oos_queue hdsack ?_ ?_
        · intro q hq
          obtain ⟨_, _, m3, _⟩ := hmem q hq
          exact ⟨by unfold SACK_SIZE at *; omega, hdist_ne q hq⟩
        · rw [List.pairwise_map] at hsort
          exact hsort
      have hbitnew : ∀ q ∈ oosInsert p s.rx_oos_queue,
          (s.ackr_sack_table.set (p.seq % SACK_SIZE) true).getD (q.seq % SACK_SIZE) false =
            true := by
        intro q hq
        rcases (oosInsert_mem p s.rx_oos_queue q).mp hq with rfl | hqm
        · exact getD_set_self s.ackr_sack_table (q.seq % SACK_SIZE) true hplen
        · obtain ⟨_, _, _, m4⟩ := hmem q hqm
          have hine : p.seq % SACK_SIZE ≠ q.seq % SACK_SIZE := by
            intro he
            rw [← he] at m4
            exact Bool.false_ne_true (hbitf.symm.trans m4)
          rw [getD_set_ne s.ackr_sack_table _ _ true hine]
          exact m4
      by_cases hadv : seq_after ((p.seq + 1) % U32) s.wtop = true
      · rw [if_pos hadv] at Fwt
        have hDlt : u32sub s.wtop s.window < u32sub p.seq s.window + 1 := hiffadv.mp hadv
        unfold RxInv
        refine ⟨?_, ?_, ?_, ?_, ?_, ?_, ?_, ?_⟩
        · rw [Fw]; exact hw
        · rw [Fwt]; exact Nat.mod_lt _ hU32pos
        · rw [Fws]; exact hws1
        · rw [Fws]; exact hws2
        · rw [Fsack, List.length_set]; exact hlen
        · rw [Fwt, Fw, Fws, hsucclt]; omega
        · rw [Foos, Fw]; exact hsorted2
        · rw [Foos]
          intro q hq
          rw [Fw, Fwt, Fsack, hsucclt]
          rcases (oosInsert_mem p s.rx_oos_queue q).mp hq with rfl | hqm
          · exact ⟨hp, hd1, by omega, hbitnew q hq⟩
          · obtain ⟨m1, m2, m3, _⟩ := hmem q hqm
            exact ⟨m1, m2, by omega, hbitnew q hq⟩
      · rw [if_neg hadv] at Fwt
        have hDge : u32sub p.seq s.window + 1 ≤ u32sub s.wtop s.window := by
          by_contra hc
          push_neg at hc
          exact hadv (hiffadv.mpr hc)
        unfold RxInv
        refine ⟨?_, ?_, ?_, ?_, ?_, ?_, ?_, ?_⟩
        · rw [Fw]; exact hw
        · rw [Fwt]; exact hwt
        · rw [Fws]; exact hws1
        · rw [Fws]; exact hws2
        · rw [Fsack, List.length_set]; exact hlen
        · rw [Fwt, Fw, Fws]; exact hspan
        · rw [Foos, Fw]; exact hsorted2
        · rw [Foos]
          intro q hq
          rw [Fw, Fwt, Fsack]
          rcases (oosInsert_mem p s.rx_oos_queue q).mp hq with rfl | hqm
          · exact ⟨hp, hd1, by omega, hbitnew q hq⟩
          · obtain ⟨m1, m2, m3, _⟩ := hmem q hqm
            exact ⟨m1, m2, m3, hbitnew q hq⟩

theorem dataOneMain_preserves (s : CallState) (p : SubPkt)
    (hinv : RxInv s) (hp : p.seq < U32) :
    RxInv (dataOneMain s p).1 := by
  unfold dataOneMain
  by_cases hh : seq_after p.seq s.rx_highest_seq = true
  · rw [if_pos hh]
    exact dataOneClassify_preserves _ p (rxInv_of_fields _ s rfl rfl rfl rfl rfl hinv) hp
  · rw [if_neg hh]
    exact dataOneClassify_preserves s p hinv hp

/-- `rxrpc_receive_data_one` preserves the receive-window invariant: the
LAST-flag prologue either protocol-aborts (leaving the window alone) or
falls through to the classification. -/
theorem receive_data_one_preserves (s : CallState) (p : SubPkt)
    (hinv : RxInv s) (hp : p.seq < U32) :
    RxInv (rxrpc_receive_data_one s p).1 := by
  unfold rxrpc_receive_data_one
  by_cases hl : p.flags.last = true
  · rw [if_pos hl]
    dsimp only
    by_cases hab : (s.rx_last && decide ((p.seq + 1) % U32 ≠ s.wtop)) = true
    · rw [if_pos hab]
      exact protoAbort_rxInv _ (rxInv_of_fields _ s rfl rfl rfl rfl rfl hinv)
    · rw [if_neg hab]
      exact dataOneMain_preserves _ p (rxInv_of_fields _ s rfl rfl rfl rfl rfl hinv) hp
  · rw [if_neg hl]
    dsimp only
    by_cases hab : (s.rx_last && seq_after_eq p.seq s.wtop) = true
    · rw [if_pos hab]
      exact protoAbort_rxInv s hinv
    · rw [if_neg hab]
      exact dataOneMain_preserves s p hinv hp

theorem runDataOne_inv : ∀ (ps : List SubPkt) (s : CallState), RxInv s →
    (∀ q ∈ ps, q.seq < U32) → RxInv (runDataOne s ps) := by
  intro ps
  induction ps with
  | nil => intro s h _; exact h
  | cons q rest ih =>
    intro s h hall
    show RxInv (runDataOne (rxrpc_receive_data_one s q).1 rest)
    exact ih (rxrpc_receive_data_one s q).1
      (receive_data_one_preserves s q h (hall q (List.mem_cons_self q rest)))
      (fun r hr => hall r (List.mem_cons_of_mem q hr))


/-- C1: for every sequence of well-formed DATA packets processed by the
receive path from a state satisfying the receive-window invariant, after
each packet — i.e. after every prefix of the sequence — the published
window pair satisfies `before_eq(window, wtop)` and
`wtop - window ≤ rx_winsize`. -/
theorem c1_receive_window_invariant (s : CallState) (ps : List SubPkt)
    (hinv : RxInv s) (hps : ∀ q ∈ ps, q.seq < U32) (n : Nat) :
    seq_before_eq (runDataOne s (List.take n ps)).window
      (runDataOne s (List.take n ps)).wtop = true ∧
    u32sub (runDataOne s (List.take n ps)).wtop (runDataOne s (List.take n ps)).window ≤
      (runDataOne s (List.take n ps)).rx_winsize := by
  have h := runDataOne_inv (List.take n ps) s hinv
    (fun q hq => hps q (List.mem_of_mem_take hq))
  obtain ⟨_, _, _, hws2, _, hspan, _, _⟩ := h
  exact ⟨seq_before_eq_of_dist_le _ _ (Nat.le_trans hspan hws2), hspan⟩

set_option maxRecDepth 4096 in
/-- C1 witness: the invariant conclusion at a fresh client call receiving
seqs 1, 3, 2 (gap then fill), checked after the full three-packet run. -/
theorem c1_receive_window_invariant_witness :
    RxInv baseState ∧
    (seq_before_eq
        (runDataOne baseState
          (List.take 3 [plainPkt 1 11, plainPkt 3 13, plainPkt 2 12])).window
        (runDataOne baseState
          (List.take 3 [plainPkt 1 11, plainPkt 3 13, plainPkt 2 12])).wtop = true ∧
      u32sub
          (runDataOne baseState
            (List.take 3 [plainPkt 1 11, plainPkt 3 13, plainPkt 2 12])).wtop
          (runDataOne baseState
            (List.take 3 [plainPkt 1 11, plainPkt 3 13, plainPkt 2 12])).window ≤
        (runDataOne baseState
          (List.take 3 [plainPkt 1 11, plainPkt 3 13, plainPkt 2 12])).rx_winsize) :=
  ⟨by decide,
   c1_receive_window_invariant baseState [plainPkt 1 11, plainPkt 3 13, plainPkt 2 12]
     (by decide) (by decide) 3⟩

end RxRPC
